import Mathlib

/-!
# OtakuuSpacee: client-side synchronisation handlers

A shallow embedding of the event handlers of the React components
`AnimeBrowser` (`src/pages/AnimeBrowser.jsx`), `PostCard`
(`src/components/PostCard.jsx`), `CommentSection`
(`src/components/CommentSection.jsx`), `Layout` (`src/components/Layout.jsx`),
`Profile` (`src/pages/Profile.jsx`), `ProfilePictureUpload`
(`src/components/ProfilePictureUpload.jsx`) and `PostDetail`
(`src/pages/PostDetail.jsx`).

Conventions of the embedding:

* a React state cell is a field of a state record; a handler is a function
  from the values its closure captured at render time (props and state) and
  the result of the request it awaits to the state updates it performs;
* a request sent to the backing store is a value (`StoreWrite`, or the list
  written to `posts.likes`), and the answer of the store is a `Bool`
  (`true` when the returned `error` is null);
* "two successive calls" means that the component has re-rendered in
  between, so the closure of the second call holds the state left by the
  first one;
* an expression that throws makes the function that models it return `none`,
  and the handler continues in its `catch` block;
* a `useEffect` callback is the list of push channels it opens together with
  the cleanup it returns to React (`EffectRun`), and `Scope` is the step model
  of its life: start, delivered events, teardown.
-/

namespace OtakuuSpacee

/-! ## Shared data -/

/-- The signed-in user, of which the handlers only read `id`. -/
structure User where
  id : String
  deriving DecidableEq, Repr

/-! ## AnimeBrowser: `handleInteraction` -/

namespace AnimeBrowser

/-- Identifier of an anime (`mal_id` of the catalogue). -/
abbrev AnimeId := Nat

/-- The `userInteractions` object: anime id to status, `none` when the key is
absent (the lookup `userInteractions[animeId]` is then `undefined`). -/
abbrev Interactions := AnimeId → Option String

/-- The empty object `{}`, initial value of `userInteractions`. -/
def emptyInteractions : Interactions := fun _ => none

/-- The object `{ ...prev, [animeId]: status }`. -/
def setKey (prev : Interactions) (animeId : AnimeId) (status : String) : Interactions :=
  fun k => if k = animeId then some status else prev k

/-- The object obtained by `const n = { ...prev }; delete n[animeId]`. -/
def deleteKey (prev : Interactions) (animeId : AnimeId) : Interactions :=
  fun k => if k = animeId then none else prev k

/-- A write request on the table `user_anime_interactions`. -/
inductive StoreWrite where
  /-- The request `.delete().eq('user_id', userId).eq('anime_id', animeId)`. -/
  | delete (userId : String) (animeId : AnimeId)
  /-- The request `.upsert({ user_id, anime_id, status })`. -/
  | upsert (userId : String) (animeId : AnimeId) (status : String)
  deriving DecidableEq, Repr

/-- What one run of `handleInteraction` does: the request it sent (if any), the
functional updater it passed to `setUserInteractions` (the identity when it did
not call it) and the argument of `setError` (if it called it). -/
structure Effect where
  write : Option StoreWrite
  update : Interactions → Interactions
  error : Option String

/-- The handler `handleInteraction(animeId, status)` of `AnimeBrowser.jsx`.
`user` and `userInteractions` are the values captured by the closure; `ok` tells
whether the awaited request came back without `error`. -/
def handleInteraction (user : Option User) (userInteractions : Interactions)
    (animeId : AnimeId) (status : String) (ok : Bool) : Effect :=
  match user with
  | none =>
    { write := none, update := id, error := some "Please sign in to mark anime" }
  | some u =>
    let existingInteraction := userInteractions animeId
    if existingInteraction = some status then
      let w := StoreWrite.delete u.id animeId
      if ok then
        { write := some w, update := fun prev => deleteKey prev animeId, error := none }
      else
        { write := some w, update := id, error := some "Failed to update anime status" }
    else
      let w := StoreWrite.upsert u.id animeId status
      if ok then
        { write := some w, update := fun prev => setKey prev animeId status, error := none }
      else
        { write := some w, update := id, error := some "Failed to update anime status" }

/-- The state cells of `AnimeBrowser` that `handleInteraction` writes. -/
structure State where
  userInteractions : Interactions
  error : String

/-- One settled call of `handleInteraction` on a rendered component: the closure
holds the current `userInteractions`, and the updates are applied to the state. -/
def call (user : Option User) (st : State) (animeId : AnimeId) (status : String)
    (ok : Bool) : State :=
  let e := handleInteraction user st.userInteractions animeId status ok
  { userInteractions := e.update st.userInteractions
    error := e.error.getD st.error }

/-- The request sent by a call of `handleInteraction` on a rendered component. -/
def issued (user : Option User) (st : State) (animeId : AnimeId) (status : String)
    (ok : Bool) : Option StoreWrite :=
  (handleInteraction user st.userInteractions animeId status ok).write

/-- The backing table `user_anime_interactions`, unique on `(user_id, anime_id)`:
the status of the row with that key, `none` when there is no such row. -/
abbrev Store := String × AnimeId → Option String

/-- The backing table without any row. -/
def emptyStore : Store := fun _ => none

/-- The effect of a request on the backing table: a successful upsert sets the
row of its key, a successful delete removes it, a failed request changes
nothing. -/
def Store.apply (store : Store) (w : StoreWrite) (ok : Bool) : Store :=
  if ok then
    match w with
    | StoreWrite.delete uid a => fun k => if k = (uid, a) then none else store k
    | StoreWrite.upsert uid a s => fun k => if k = (uid, a) then some s else store k
  else store

/-- The backing table after a call of `handleInteraction`: the request it sent,
if any, has been answered with `ok`. -/
def storeAfter (store : Store) (user : Option User) (st : State) (animeId : AnimeId)
    (status : String) (ok : Bool) : Store :=
  match issued user st animeId status ok with
  | none => store
  | some w => store.apply w ok

end AnimeBrowser

/-! ## PostCard: `handleLike` -/

namespace PostCard

/-- The fields of the `post` prop that `PostCard` reads for the like button.
`likes` is `none` when the column is null or missing (`CreatePost` inserts a
post without a `likes` field). -/
structure Post where
  id : Nat
  likes : Option (List String)
  deriving DecidableEq, Repr

/-- The state cells `isLiked` and `likeCount` of `PostCard`. `isLiked` is only
ever tested and negated, so the initial `undefined` is recorded as `false`. -/
structure State where
  isLiked : Bool
  likeCount : Nat
  deriving DecidableEq, Repr

/-- The initial state: `useState(post.likes?.includes(user?.id))` and
`useState(post.likes?.length || 0)`. -/
def init (post : Post) (user : Option User) : State :=
  { isLiked :=
      match post.likes, user with
      | some l, some u => decide (u.id ∈ l)
      | _, _ => false
    likeCount :=
      match post.likes with
      | some l => l.length
      | none => 0 }

/-- The local constant `newLikes` of `handleLike` for a signed-in user:
`isLiked ? post.likes.filter(id => id !== user.id) : [...(post.likes || []), user.id]`.
It is `none` when the evaluation throws (`post.likes.filter` on null likes). -/
def newLikes (post : Post) (u : User) (isLiked : Bool) : Option (List String) :=
  if isLiked then
    match post.likes with
    | some l => some (l.filter (fun id => id != u.id))
    | none => none
  else
    some (post.likes.getD [] ++ [u.id])

/-- The synchronous first step of `handleLike`, up to the `await`: the list it
sends in `.update({ likes: newLikes }).eq('id', post.id)`, or `none` when it
sends nothing (no user: early return; null likes with `isLiked`: exception). -/
def request (post : Post) (user : Option User) (st : State) : Option (List String) :=
  match user with
  | none => none
  | some u => newLikes post u st.isLiked

/-- The state the component shows while the request of `handleLike` is in
flight: the first step calls no state setter, so it is the state before the
call. -/
def whileAwaiting (_post : Post) (_user : Option User) (st : State) : State := st

/-- The second step of `handleLike`, run when the store has answered the request
carrying `sent`: `if (!error) { setIsLiked(!isLiked); setLikeCount(newLikes.length) }`,
where `closure` is the state captured at the call and `current` the state at the
time of the answer. -/
def settle (closure current : State) (sent : List String) (ok : Bool) : State :=
  if ok then { isLiked := !closure.isLiked, likeCount := sent.length } else current

/-- One settled call of `handleLike` on a rendered component. -/
def handleLike (post : Post) (user : Option User) (st : State) (ok : Bool) : State :=
  match request post user st with
  | none => st
  | some sent => settle st (whileAwaiting post user st) sent ok

/-- The values `handleLike` predicts for a signed-in user when it sends `sent`:
the negated `isLiked` and the length of the list sent. -/
def predicted (st : State) (sent : List String) : State :=
  { isLiked := !st.isLiked, likeCount := sent.length }

/-- A sequence of settled calls of `handleLike` on one mounted `PostCard` (the
`post` prop is not changed by the handler); `oks` lists the answers of the
store. The result is the final state and, in order, the lists that were sent
together with the answer each one got. -/
def run (post : Post) (user : Option User) :
    State → List Bool → State × List (List String × Bool)
  | st, [] => (st, [])
  | st, ok :: oks =>
    let r := run post user (handleLike post user st ok) oks
    match request post user st with
    | none => r
    | some sent => (r.1, (sent, ok) :: r.2)

/-- The lists written to `posts.likes` by a sequence of calls: those sent in a
request that the store answered without error. -/
def written (post : Post) (user : Option User) (st : State) (oks : List Bool) :
    List (List String) :=
  ((run post user st oks).2.filter (fun w => w.2)).map (fun w => w.1)

end PostCard

/-! ## CommentSection: the push handler of `subscribeToComments` -/

namespace CommentSection

/-- A row of the table `comments`. -/
structure Comment where
  id : Nat
  post_id : Nat
  user_id : String
  content : String
  created_at : String
  deriving DecidableEq, Repr

/-- The payload of a `postgres_changes` event on `comments` (the subscription
listens to `event: '*'`). -/
inductive Payload where
  /-- An event with `eventType === 'INSERT'` and the new row in `payload.new`. -/
  | insert (new : Comment)
  /-- An event with `eventType === 'DELETE'` and the key in `payload.old.id`. -/
  | delete (oldId : Nat)
  /-- An event with `eventType === 'UPDATE'`. -/
  | update (old new : Comment)
  deriving DecidableEq, Repr

/-- The callback registered by `subscribeToComments`, as a function on the
`comments` state: `[...prev, payload.new]` on INSERT,
`prev.filter(c => c.id !== payload.old.id)` on DELETE, nothing otherwise. -/
def onPayload (prev : List Comment) (payload : Payload) : List Comment :=
  match payload with
  | Payload.insert new => prev ++ [new]
  | Payload.delete oldId => prev.filter (fun c => c.id != oldId)
  | Payload.update _ _ => prev

/-- The number of comments of a list that have the id `i`. -/
def countId (cs : List Comment) (i : Nat) : Nat :=
  cs.countP (fun c => c.id == i)

end CommentSection

/-! ## CommentSection: creation order -/

namespace CommentSection

/-- Creation order of two rows: the `created_at` strings (ISO-8601 timestamps as
the store emits them, one format and one time zone) compared character by
character. -/
def createdBefore (a b : Comment) : Prop := a.created_at.data ≤ b.created_at.data

instance (a b : Comment) : Decidable (createdBefore a b) := by
  unfold createdBefore
  infer_instance

/-- The list is in ascending creation order, the order in which `fetchComments`
asks for the rows (`.order('created_at', { ascending: true })`). -/
def createdAscending (cs : List Comment) : Prop := cs.Pairwise createdBefore

instance (cs : List Comment) : Decidable (createdAscending cs) := by
  unfold createdAscending
  infer_instance

end CommentSection

/-! ## Layout: the push handler of the notifications effect -/

namespace Layout

/-- A row of the table `notifications`. -/
structure Notification where
  id : Nat
  message : String
  created_at : String
  deriving DecidableEq, Repr

/-- The callback registered on the channel `notifications`, as a function on the
`notifications` state: `setNotifications(prev => [payload.new, ...prev])`, where
`new` is the `payload.new` of the event. -/
def onPayload (prev : List Notification) (new : Notification) : List Notification :=
  new :: prev

end Layout

/-! ## Push channels: the effects that open them and their cleanup -/

/-- The name of a push channel: `comments:${postId}` or `notifications`. -/
inductive Topic where
  | comments (postId : Nat)
  | notifications
  deriving DecidableEq, Repr

/-- What a `useEffect` callback did: the channels it subscribed, and the function
it returned to React, given by the channels that function closes (`none` when
the callback returned `undefined`). -/
structure EffectRun where
  opened : List Topic
  cleanup : Option (List Topic)
  deriving DecidableEq, Repr

/-- `CommentSection.subscribeToComments()`: it subscribes `comments:${postId}`
and returns `() => { subscription.unsubscribe() }`; the result is the channel
opened and the channels closed by the returned function. -/
def CommentSection.subscribeToComments (postId : Nat) : Topic × List Topic :=
  (Topic.comments postId, [Topic.comments postId])

/-- The effect of `CommentSection`,
`useEffect(() => { fetchComments(); subscribeToComments(); }, [postId])`:
`subscribeToComments()` is called as a statement, the function it returns is
dropped and the callback returns `undefined`. -/
def CommentSection.effect (postId : Nat) : EffectRun :=
  let sub := CommentSection.subscribeToComments postId
  { opened := [sub.1], cleanup := none }

/-- The first effect of `Layout`: with a user it subscribes `notifications` and
returns `() => { supabase.removeChannel(channel) }`; without a user it does
nothing and returns `undefined`. -/
def Layout.effect (user : Option User) : EffectRun :=
  match user with
  | some _ => { opened := [Topic.notifications], cleanup := some [Topic.notifications] }
  | none => { opened := [], cleanup := none }

/-- The scope of one effect run: the channels it holds open, the cleanup React
keeps for it, and the state cell its push handler writes. -/
structure Scope (σ : Type) where
  channels : List Topic
  cleanup : Option (List Topic)
  state : σ

namespace Scope

/-- React runs the effect: the scope starts with the channels the callback
opened and the cleanup it returned. -/
def start {σ : Type} (e : EffectRun) (s : σ) : Scope σ :=
  { channels := e.opened, cleanup := e.cleanup, state := s }

/-- React tears the scope down (unmount, or a dependency of the effect changed):
it calls the cleanup it was given, if any, which closes its channels. -/
def teardown {σ : Type} (sc : Scope σ) : Scope σ :=
  match sc.cleanup with
  | none => sc
  | some closed =>
    { sc with channels := sc.channels.filter (fun t => !closed.contains t), cleanup := none }

/-- The bus delivers an event on `topic`: the handler registered on that channel
runs when the channel is still open, and nothing happens otherwise. -/
def deliver {σ π : Type} (handler : σ → π → σ) (topic : Topic) (payload : π)
    (sc : Scope σ) : Scope σ :=
  if topic ∈ sc.channels then { sc with state := handler sc.state payload } else sc

end Scope

/-! ## AnimeBrowser: `fetchAnime` and `loadMore` -/

namespace AnimeBrowser

/-- An item of `data.data` in the answer of the catalogue. The outer `none` of
`images_jpg`, `aired` and `genres` stands for an item without `images.jpg`,
`aired` or `genres`: reading through it throws. `score` is the decimal score in
hundredths; it is only copied. -/
structure RawAnime where
  mal_id : Nat
  title : String
  images_jpg : Option (Option String)
  synopsis : Option String
  score : Option Nat
  episodes : Option Nat
  status : String
  aired : Option (Option String)
  genres : Option (List String)
  deriving DecidableEq, Repr

/-- An element of `animeList`. -/
structure Anime where
  id : Nat
  title : String
  image_url : Option String
  description : Option String
  rating : Option Nat
  episodes : Option Nat
  status : String
  aired : Option String
  genres : String
  deriving DecidableEq, Repr

/-- The arrow function of `data.data.map(anime => ({ ... }))`; `none` when it
throws (`anime.images.jpg`, `anime.aired.string` or `anime.genres.map` on a
missing object). -/
def mapAnime (anime : RawAnime) : Option Anime :=
  match anime.images_jpg, anime.aired, anime.genres with
  | some large_image_url, some string, some names =>
    some
      { id := anime.mal_id
        title := anime.title
        image_url := large_image_url
        description := anime.synopsis
        rating := anime.score
        episodes := anime.episodes
        status := anime.status
        aired := string
        genres := ", ".intercalate names }
  | _, _, _ => none

/-- The call `data.data.map(...)`: the mapped items in order, or `none` as soon
as one item throws. -/
def mapAll : List RawAnime → Option (List Anime)
  | [] => some []
  | anime :: rest =>
    match mapAnime anime with
    | none => none
    | some a =>
      match mapAll rest with
      | none => none
      | some mapped => some (a :: mapped)

/-- The answer to `fetch('https://api.jikan.moe/v4/top/anime?page=' + page)`:
`response.ok`, `response.status` and the parsed body, with `data = none` for a
body without a `data` array and `has_next_page = none` for a body without
`pagination`. -/
structure Response where
  ok : Bool
  status : Nat
  data : Option (List RawAnime)
  has_next_page : Option Bool
  deriving DecidableEq, Repr

/-- The state cells of `AnimeBrowser` that `fetchAnime` and `loadMore` write. -/
structure Catalog where
  animeList : List Anime
  loading : Bool
  error : String
  page : Nat
  hasMore : Bool
  deriving DecidableEq, Repr

/-- The constant `newAnime` of `fetchAnime`, `none` when computing it throws. -/
def newAnime (response : Response) : Option (List Anime) :=
  match response.data with
  | none => none
  | some items => mapAll items

/-- The `try` block of `fetchAnime` after `setLoading(true)`, with its `catch`:
a thrown error keeps the updates made before it and sets the error message. -/
def fetchAnimeTry (page : Nat) (response : Response) (st : Catalog) : Catalog :=
  if response.ok then
    match newAnime response with
    | none => { st with error := "Failed to load anime list" }
    | some items =>
      let st1 := { st with animeList := if page = 1 then items else st.animeList ++ items }
      match response.has_next_page with
      | none => { st1 with error := "Failed to load anime list" }
      | some flag => { st1 with hasMore := flag }
  else
    { st with error := "Failed to load anime list" }

/-- One settled run of `fetchAnime()` with the page number `page` of its closure:
`setLoading(true)`, the `try` block, and `setLoading(false)` in `finally`. -/
def fetchAnime (page : Nat) (response : Response) (st : Catalog) : Catalog :=
  { fetchAnimeTry page response { st with loading := true } with loading := false }

/-- The handler `loadMore`: `if (hasMore && !loading) setPage(prev => prev + 1)`. -/
def loadMore (st : Catalog) : Catalog :=
  if st.hasMore && !st.loading then { st with page := st.page + 1 } else st

/-- The fetch answered by `response` ran to its end without throwing. -/
def succeeded (response : Response) : Bool :=
  response.ok && (newAnime response).isSome && response.has_next_page.isSome

/-- The mapped items of an answer (none when the mapping throws). -/
def itemsOf (response : Response) : List Anime :=
  (newAnime response).getD []

/-- The pages `first`, `first + 1`, ... fetched in this order, one settled run of
`fetchAnime` for each answer of the list. -/
def fetchPages : Nat → List Response → Catalog → Catalog
  | _, [], st => st
  | first, response :: rest, st => fetchPages (first + 1) rest (fetchAnime first response st)

/-- The ids of a list of anime, in order. -/
def ids (l : List Anime) : List Nat := l.map (fun a => a.id)

end AnimeBrowser

/-! ## Profile: `fetchProfile` -/

namespace Profile

/-- The fields of the `user` prop that `fetchProfile` reads. The code reads
`user.email` without a guard (here and in `AuthCallback`), so a signed-in user
is taken to have an email address. -/
structure SessionUser where
  id : String
  email : String
  deriving DecidableEq, Repr

/-- A row of the table `profiles`. -/
structure ProfileRow where
  id : String
  username : String
  avatar_url : String
  bio : String
  deriving DecidableEq, Repr

/-- The answer `{ data, error }` of the read `.select('*').eq('id', ...).single()`. -/
inductive ReadResult where
  /-- The case `error` null, with the row in `data`. -/
  | data (row : ProfileRow)
  /-- The case `error` set, with its `error.code`. -/
  | error (code : String)
  deriving DecidableEq, Repr

/-- The answer `{ data: newProfile, error: createError }` of the insert. -/
inductive InsertResult where
  /-- The case `createError` null, with the created row. -/
  | data (newProfile : ProfileRow)
  /-- The case `createError` set. -/
  | error
  deriving DecidableEq, Repr

/-- The state cells of `Profile` that `fetchProfile` writes. -/
structure State where
  profile : Option ProfileRow
  loading : Bool
  error : String
  deriving DecidableEq, Repr

/-- The test `!userId` on the route parameter: true for `undefined` and for the
empty string. -/
def notUserId (userId : Option String) : Bool :=
  match userId with
  | none => true
  | some s => s == ""

/-- The argument `userId || user?.id` of the read. -/
def queriedId (user : Option SessionUser) (userId : Option String) : Option String :=
  if notUserId userId then user.map (fun u => u.id) else userId

/-- The row sent by the insert: `id: user.id`, `username: user.email.split('@')[0]`
(the characters before the first `@`), and the two fixed strings. -/
def newProfileRow (u : SessionUser) : ProfileRow :=
  { id := u.id
    username := String.mk (u.email.data.takeWhile (fun c => c != '@'))
    avatar_url := "https://i.imgur.com/1Q9ZQ9r.png"
    bio := "New anime enthusiast" }

/-- What one run of `fetchProfile` did: the id it read, the row it inserted (if
it issued an insert) and the state it left. -/
structure Outcome where
  queried : Option String
  insert : Option ProfileRow
  state : State
  deriving DecidableEq, Repr

/-- The `try` block of `fetchProfile` with its `catch`: the insert issued, if
any, and the state after it. `create` is the answer the insert gets when it is
issued. -/
def fetchProfileTry (user : Option SessionUser) (userId : Option String)
    (read : ReadResult) (create : InsertResult) (st : State) : Option ProfileRow × State :=
  match read with
  | ReadResult.data row => (none, { st with profile := some row })
  | ReadResult.error code =>
    if code = "PGRST116" then
      match user with
      | some u =>
        if userId = some u.id || notUserId userId then
          match create with
          | InsertResult.data newProfile =>
            (some (newProfileRow u), { st with profile := some newProfile })
          | InsertResult.error =>
            (some (newProfileRow u), { st with error := "Failed to load profile" })
        else (none, { st with error := "Failed to load profile" })
      | none => (none, { st with error := "Failed to load profile" })
    else (none, { st with error := "Failed to load profile" })

/-- One settled run of `fetchProfile()`: the `try` block, then `setLoading(false)`
in `finally`. -/
def fetchProfile (user : Option SessionUser) (userId : Option String)
    (read : ReadResult) (create : InsertResult) (st : State) : Outcome :=
  let r := fetchProfileTry user userId read create st
  { queried := queriedId user userId
    insert := r.1
    state := { r.2 with loading := false } }

end Profile

/-! ## Avatar uploads: `Profile.handleImageUpload` and `ProfilePictureUpload.handleUpload` -/

namespace Upload

/-- The fields of a browser `File` that matter to an upload: its name, its MIME
type (`file.type`) and its size in bytes. -/
structure File where
  name : String
  type : String
  size : Nat
  deriving DecidableEq, Repr

/-- The array `s.split('.')`, on the characters of `s`: the pieces between the
dots, in order (one empty piece for the empty string). -/
def splitDot : List Char → List (List Char)
  | [] => [[]]
  | c :: cs =>
    match splitDot cs with
    | [] => [[]]
    | piece :: pieces => if c = '.' then [] :: piece :: pieces else (c :: piece) :: pieces

/-- The expression `file.name.split('.').pop()`: the last piece of the name. -/
def fileExt (name : String) : String :=
  String.mk ((splitDot name.data).getLast?.getD [])

/-- The text after the last `.` of a list of characters, the whole list when it
has no `.`; this follows the wording of the file-type rule, to be compared with
`fileExt`. -/
def afterLastDot : List Char → List Char
  | [] => []
  | c :: cs => if '.' ∈ cs then afterLastDot cs else if c = '.' then cs else c :: cs

/-- The method `toLowerCase()`. Only the letters `A` to `Z` are mapped; no other
character has a lower case among the letters of `jpg`, `jpeg`, `png`, `gif`. -/
def toLowerCase (s : String) : String :=
  String.mk (s.data.map Char.toLower)

/-- The constant `validExtensions` of `Profile.handleImageUpload`. -/
def validExtensions : List String := ["jpg", "jpeg", "png", "gif"]

/-- The limits that `initializeStorage` puts on the bucket `avatars`:
`allowedMimeTypes`. -/
def allowedMimeTypes : List String := ["image/jpeg", "image/png", "image/gif"]

/-- The limits that `initializeStorage` puts on the bucket `avatars`:
`fileSizeLimit` (5 MB). -/
def fileSizeLimit : Nat := 5242880

/-- A file the object storage accepts: a JPEG, PNG or GIF image of at most 5 MB. -/
def acceptable (file : File) : Bool :=
  allowedMimeTypes.contains file.type && decide (file.size ≤ fileSizeLimit)

/-- The request `supabase.storage.from(bucket).upload(path, file, ...)`. -/
structure UploadRequest where
  bucket : String
  path : String
  file : File
  deriving DecidableEq, Repr

end Upload

namespace Profile

open Upload

/-- The state cells of `Profile` that `handleImageUpload` writes. The progress is
a percentage; the handler itself only ever stores 0. -/
structure UploadState where
  uploading : Bool
  uploadProgress : Nat
  error : String
  deriving DecidableEq, Repr

/-- What one run of `handleImageUpload` did: the upload it requested, the path
whose public URL it wrote to `profiles.avatar_url`, whether it called
`fetchProfile()` at the end, and the state it left. -/
structure UploadOutcome where
  upload : Option UploadRequest
  avatarUpdate : Option String
  refreshed : Bool
  state : UploadState
  deriving DecidableEq, Repr

/-- The `try` block of `handleImageUpload` after the two first setters, with its
`catch` (`setError(err.message)`). `user` is signed in: the file input is only
rendered under `user && user.id === (userId || user.id)`. `files` is
`e.target.files`, `now` is `Date.now()`, and `uploadError`, `updateError` are the
messages of the errors the two requests come back with (`none` for no error). -/
def handleImageUploadTry (user : SessionUser) (files : List File) (now : Nat)
    (uploadError updateError : Option String) (st : UploadState) : UploadOutcome :=
  match files.head? with
  | none => { upload := none, avatarUpdate := none, refreshed := false, state := st }
  | some file =>
    let ext := fileExt file.name
    if validExtensions.contains (toLowerCase ext) then
      let filePath := user.id ++ "/" ++ toString now ++ "." ++ ext
      let request : UploadRequest := { bucket := "profile-pictures", path := filePath, file := file }
      match uploadError with
      | some message =>
        { upload := some request, avatarUpdate := none, refreshed := false,
          state := { st with error := message } }
      | none =>
        match updateError with
        | some message =>
          { upload := some request, avatarUpdate := some filePath, refreshed := false,
            state := { st with error := message } }
        | none =>
          { upload := some request, avatarUpdate := some filePath, refreshed := true,
            state := st }
    else
      { upload := none, avatarUpdate := none, refreshed := false,
        state := { st with error := "Invalid file type. Please upload an image file." } }

/-- One settled run of `handleImageUpload(e)`: `setUploading(true)`,
`setUploadProgress(0)`, the `try` block, and in `finally` `setUploading(false)`,
`setUploadProgress(0)`. -/
def handleImageUpload (user : SessionUser) (files : List File) (now : Nat)
    (uploadError updateError : Option String) (st : UploadState) : UploadOutcome :=
  let r := handleImageUploadTry user files now uploadError updateError
    { st with uploading := true, uploadProgress := 0 }
  { r with state := { r.state with uploading := false, uploadProgress := 0 } }

end Profile

namespace ProfilePictureUpload

open Upload

/-- The state cells of `ProfilePictureUpload` that `handleUpload` writes; the
preview, set later by the file reader, is left out. -/
structure State where
  uploading : Bool
  error : Option String
  deriving DecidableEq, Repr

/-- What one run of `handleUpload` did: the upload it requested, the path whose
public URL it upserted into `profiles`, the path whose public URL it passed to
`onUpload`, and the state it left. -/
structure Outcome where
  upload : Option UploadRequest
  avatarUpsert : Option String
  onUpload : Option String
  state : State
  deriving DecidableEq, Repr

/-- The `try` block of `handleUpload` after `setUploading(true)` and
`setError(null)`, with its `catch` (`setError(error.message)`). `files` is
`event.target.files` (empty also when it is missing), `random` is the text of
`Math.random()`. -/
def handleUploadTry (userId : String) (files : List File) (random : String)
    (uploadError updateError : Option String) (st : State) : Outcome :=
  match files.head? with
  | none =>
    { upload := none, avatarUpsert := none, onUpload := none,
      state := { st with error := some "You must select an image to upload." } }
  | some file =>
    let ext := fileExt file.name
    let filePath := userId ++ "-" ++ random ++ "." ++ ext
    let request : UploadRequest := { bucket := "avatars", path := filePath, file := file }
    match uploadError with
    | some message =>
      { upload := some request, avatarUpsert := none, onUpload := none,
        state := { st with error := some message } }
    | none =>
      match updateError with
      | some message =>
        { upload := some request, avatarUpsert := some filePath, onUpload := none,
          state := { st with error := some message } }
      | none =>
        { upload := some request, avatarUpsert := some filePath, onUpload := some filePath,
          state := st }

/-- One settled run of `handleUpload(event)`: `setUploading(true)`,
`setError(null)`, the `try` block, and `setUploading(false)` in `finally`. -/
def handleUpload (userId : String) (files : List File) (random : String)
    (uploadError updateError : Option String) (st : State) : Outcome :=
  let r := handleUploadTry userId files random uploadError updateError
    { st with uploading := true, error := none }
  { r with state := { r.state with uploading := false } }

end ProfilePictureUpload

/-! ## PostDetail: `handleUpvote` -/

namespace PostDetail

/-- The first integer from which the numbers of the language (IEEE 754 doubles)
no longer hold every integer: 2^53. -/
def unsafeFrom : Int := 9007199254740992

/-- The sum `n + 1` of the language on an integer-valued number `n`. Below 2^53
in magnitude the sum is exact. From 2^53 to 2^54 the numbers are the even
integers, `n + 1` lies half-way between `n` and `n + 2` and is rounded to the one
whose significand `n / 2` is even. Beyond, `n + 1` is rounded back to `n`. -/
def addOne (n : Int) : Int :=
  if -unsafeFrom ≤ n ∧ n < unsafeFrom then n + 1
  else if (unsafeFrom ≤ n ∧ n < 2 * unsafeFrom) ∨ (-(2 * unsafeFrom) < n ∧ n < -unsafeFrom) then
    if (n / 2) % 2 = 0 then n else n + 2
  else n

/-- The state cells of `PostDetail` that `handleUpvote` reads and writes: the
`upvotes` of the loaded post (the page renders the button only when `post` is
set), an integer-valued number of the language, and the error message. -/
structure State where
  upvotes : Int
  error : String
  deriving DecidableEq, Repr

/-- What one run of `handleUpvote` does: the value it wrote in
`.update({ upvotes: post.upvotes + 1 })` (if it sent the request), the updater
it passed to `setPost` on the field `upvotes` (the identity when it did not call
it) and the argument of `setError` (if it called it). -/
structure Effect where
  write : Option Int
  update : Int → Int
  error : Option String

/-- The handler `handleUpvote()`; `user` and `upvotes` (`post.upvotes`) are the
values captured by the closure, `ok` tells whether the request came back without
`error`. Both `post.upvotes + 1` and `prev.upvotes + 1` are sums of the
language. -/
def handleUpvote (user : Option User) (upvotes : Int) (ok : Bool) : Effect :=
  match user with
  | none => { write := none, update := id, error := some "Please sign in to upvote" }
  | some _ =>
    if ok then
      { write := some (addOne upvotes), update := fun prev => addOne prev, error := none }
    else
      { write := some (addOne upvotes), update := id, error := some "Failed to upvote post" }

/-- One settled call of `handleUpvote` on a rendered page. -/
def call (user : Option User) (st : State) (ok : Bool) : State :=
  let e := handleUpvote user st.upvotes ok
  { upvotes := e.update st.upvotes, error := e.error.getD st.error }

/-- The value written by a call of `handleUpvote` on a rendered page. -/
def written (user : Option User) (st : State) (ok : Bool) : Option Int :=
  (handleUpvote user st.upvotes ok).write

/-- A finite sequence of settled calls, each with the user signed in at that
time (if any) and the answer of the store. -/
def run : List (Option User × Bool) → State → State
  | [], st => st
  | (user, ok) :: rest, st => run rest (call user st ok)

end PostDetail

/-! ## CommentSection: `handleDelete` -/

namespace CommentSection

/-- The request `.delete().eq('id', id).eq('user_id', user_id)` on `comments`. -/
structure DeleteRequest where
  id : Nat
  user_id : String
  deriving DecidableEq, Repr

/-- The state cells of `CommentSection` within reach of `handleDelete`. -/
structure Panel where
  comments : List Comment
  error : Option String
  deriving DecidableEq, Repr

/-- One settled call of `handleDelete(commentId)`: the request it sent, if any,
and the state it left. -/
def handleDelete (user : Option User) (commentId : Nat) (ok : Bool) (st : Panel) :
    Option DeleteRequest × Panel :=
  match user with
  | none => (none, st)
  | some u =>
    let request : DeleteRequest := { id := commentId, user_id := u.id }
    if ok then (some request, st)
    else (some request, { st with error := some "Failed to delete comment" })

end CommentSection

/-! ## PostCard: `handleBookmark` -/

namespace PostCard

/-- The key `(user_id, post_id)` of the row sent by
`.upsert({ user_id, post_id, created_at })` on `bookmarks`. -/
abbrev BookmarkKey := String × Nat

/-- One settled call of `handleBookmark()`: the key it upserted, if it sent the
request, and the new value of `isBookmarked`. -/
def handleBookmark (post : Post) (user : Option User) (isBookmarked : Bool) (ok : Bool) :
    Option BookmarkKey × Bool :=
  match user with
  | none => (none, isBookmarked)
  | some u => (some (u.id, post.id), if ok then !isBookmarked else isBookmarked)

/-- The table `bookmarks`, unique on `(user_id, post_id)`, as the set of its
keys. -/
abbrev Bookmarks := BookmarkKey → Bool

/-- The table without any row. -/
def noBookmarks : Bookmarks := fun _ => false

/-- A successful upsert puts the row of its key in the table (and leaves it
there when it is in already). -/
def Bookmarks.upsert (store : Bookmarks) (key : BookmarkKey) : Bookmarks :=
  fun k => if k = key then true else store k

/-- The table and the flag `isBookmarked` after `n` successful calls of
`handleBookmark` in a row. -/
def bookmarkTimes (post : Post) (user : Option User) :
    Nat → Bookmarks × Bool → Bookmarks × Bool
  | 0, s => s
  | n + 1, (store, isBookmarked) =>
    let r := handleBookmark post user isBookmarked true
    bookmarkTimes post user n
      (match r.1 with
        | some key => store.upsert key
        | none => store,
       r.2)

end PostCard

/-! ## CommentSection: the comments as the render reads them -/

namespace CommentSection

/-- The joined author profile that `fetchComments` selects with
`user:profiles(username, avatar_url)`. -/
structure Author where
  username : String
  avatar_url : Option String
  deriving DecidableEq, Repr

/-- An element of the `comments` state as the render reads it: the row of the
table and its field `user`, `none` when the object has no such field. -/
structure Shown where
  row : Comment
  user : Option Author
  deriving DecidableEq, Repr

/-- The push callback on the elements the render reads. The `payload.new` of an
INSERT event is the row of the table `comments` alone (the event carries the
columns of the table, not the join of `fetchComments`), so the element put last
has no `user`. -/
def onPayloadShown (prev : List Shown) (payload : Payload) : List Shown :=
  match payload with
  | Payload.insert new => prev ++ [{ row := new, user := none }]
  | Payload.delete oldId => prev.filter (fun c => c.row.id != oldId)
  | Payload.update _ _ => prev

/-- The part of the render of one comment that reads its author: the image
source `comment.user.avatar_url || (the ui-avatars address of the username)` and
the name `comment.user.username`; `none` when `comment.user` is missing, where
the read throws. -/
def renderAuthor (c : Shown) : Option (String × String) :=
  match c.user with
  | none => none
  | some author =>
    let generated :=
      "https://ui-avatars.com/api/?name=" ++ author.username ++ "&background=6366f1&color=fff"
    let src :=
      match author.avatar_url with
      | some url => if url = "" then generated else url
      | none => generated
    some (src, author.username)

/-- The render of `comments.map(...)`, reduced to the authors: `none` as soon as
one comment throws. -/
def renderAuthors : List Shown → Option (List (String × String))
  | [] => some []
  | c :: cs =>
    match renderAuthor c with
    | none => none
    | some shown =>
      match renderAuthors cs with
      | none => none
      | some rest => some (shown :: rest)

end CommentSection

/-! ## AnimeBrowser: the runs of the fetch effect -/

namespace AnimeBrowser

/-- What makes the effect `useEffect(() => { fetchAnime(); ... }, [user, page])`
run again, with the answer its fetch will get: a click on the button of
`loadMore`, or a change of the `user` prop. -/
inductive Trigger where
  | loadMore (response : Response)
  | userChanged (response : Response)
  deriving DecidableEq, Repr

/-- One trigger, settled: the state after it and the page number it fetched, if
it fetched. `loadMore` makes the effect run only when it moved the page number;
the effect calls `fetchAnime` with the page number of the new render. A change
of `user` runs the effect with the page number as it is. -/
def step (t : Trigger) (st : Catalog) : Catalog × Option Nat :=
  match t with
  | Trigger.loadMore response =>
    let st1 := loadMore st
    if st1.page = st.page then (st1, none)
    else (fetchAnime st1.page response st1, some st1.page)
  | Trigger.userChanged response => (fetchAnime st.page response st, some st.page)

/-- A sequence of triggers, settled one after the other: the final state and the
page numbers fetched, in order. -/
def runTriggers : List Trigger → Catalog → Catalog × List Nat
  | [], st => (st, [])
  | t :: ts, st =>
    let r := step t st
    let rest := runTriggers ts r.1
    (rest.1, match r.2 with
      | some page => page :: rest.2
      | none => rest.2)

/-- The trigger is a click on the button of `loadMore`. -/
def Trigger.isLoadMore : Trigger → Bool
  | Trigger.loadMore _ => true
  | Trigger.userChanged _ => false

end AnimeBrowser

/-! ## Theorems: AnimeBrowser -/

namespace AnimeBrowser

/-- After a successful call of a signed-in user the map holds, at the key of the
call, nothing if it held the requested status and the requested status
otherwise; the other keys are untouched. -/
theorem call_ok_apply (u : User) (st : State) (animeId : AnimeId) (status : String)
    (k : AnimeId) :
    (call (some u) st animeId status true).userInteractions k
      = if k = animeId then
          (if st.userInteractions animeId = some status then none else some status)
        else st.userInteractions k := by
  by_cases h : st.userInteractions animeId = some status <;>
    by_cases hk : k = animeId <;>
    simp [call, handleInteraction, h, hk, setKey, deleteKey]

/-- A call whose request fails leaves the map as it was. -/
theorem call_failed_interactions (user : Option User) (st : State) (animeId : AnimeId)
    (status : String) :
    (call user st animeId status false).userInteractions = st.userInteractions := by
  cases user with
  | none => rfl
  | some u =>
    by_cases h : st.userInteractions animeId = some status <;>
      simp [call, handleInteraction, h]

/-- C1. Toggle idempotence: starting from a map with no entry for `animeId`, two
successive `handleInteraction(animeId, status)` calls of a signed-in user whose
writes both succeed leave the map equal to the starting map, with no entry for
`animeId`. -/
theorem toggle_twice_from_absent (u : User) (st : State) (animeId : AnimeId)
    (status : String) (habs : st.userInteractions animeId = none) :
    (call (some u) (call (some u) st animeId status true) animeId status
        true).userInteractions = st.userInteractions
      ∧ (call (some u) (call (some u) st animeId status true) animeId status
          true).userInteractions animeId = none := by
  have key : (call (some u) (call (some u) st animeId status true) animeId status
      true).userInteractions = st.userInteractions := by
    funext k
    rw [call_ok_apply, call_ok_apply]
    by_cases hk : k = animeId
    · subst hk
      simp [habs]
    · simp [hk, call_ok_apply]
  exact ⟨key, by rw [key]; exact habs⟩

/-- Witness of C1: user `u1`, the empty map, anime 5 and status `watched`. -/
theorem toggle_twice_from_absent_witness :
    (State.mk emptyInteractions "").userInteractions 5 = none
      ∧ (call (some ⟨"u1"⟩) (call (some ⟨"u1"⟩) ⟨emptyInteractions, ""⟩ 5 "watched" true)
          5 "watched" true).userInteractions = emptyInteractions
      ∧ (call (some ⟨"u1"⟩) (call (some ⟨"u1"⟩) ⟨emptyInteractions, ""⟩ 5 "watched" true)
          5 "watched" true).userInteractions 5 = none :=
  ⟨rfl, toggle_twice_from_absent ⟨"u1"⟩ ⟨emptyInteractions, ""⟩ 5 "watched" rfl⟩

/-- C2. Status switch: from every starting map (the entry of `animeId` absent,
`watched`, `favorite` or anything else), `handleInteraction(animeId, 'watched')`
followed by `handleInteraction(animeId, 'favorite')`, both with successful
writes, leaves `animeId` mapped to the single status `favorite`. -/
theorem watched_then_favorite (u : User) (st : State) (animeId : AnimeId) :
    (call (some u) (call (some u) st animeId "watched" true) animeId "favorite"
        true).userInteractions animeId = some "favorite" := by
  rw [call_ok_apply, call_ok_apply]
  by_cases h : st.userInteractions animeId = some "watched" <;> simp [h]

/-- C3. Toggle off: if the map holds `status` for `animeId`, then after a
successful `handleInteraction(animeId, status)` the map has no entry for
`animeId`, and the request sent is the delete keyed by `(user.id, animeId)`. -/
theorem toggle_off (u : User) (st : State) (animeId : AnimeId) (status : String)
    (hheld : st.userInteractions animeId = some status) :
    (call (some u) st animeId status true).userInteractions animeId = none
      ∧ issued (some u) st animeId status true = some (StoreWrite.delete u.id animeId) := by
  constructor
  · rw [call_ok_apply]
    simp [hheld]
  · simp [issued, handleInteraction, hheld]

/-- Witness of C3: user `u1` holds `favorite` for anime 7 and requests `favorite`. -/
theorem toggle_off_witness :
    (State.mk (setKey emptyInteractions 7 "favorite") "").userInteractions 7 = some "favorite"
      ∧ (call (some ⟨"u1"⟩) ⟨setKey emptyInteractions 7 "favorite", ""⟩ 7 "favorite"
          true).userInteractions 7 = none
      ∧ issued (some ⟨"u1"⟩) ⟨setKey emptyInteractions 7 "favorite", ""⟩ 7 "favorite" true
          = some (StoreWrite.delete "u1" 7) :=
  ⟨by decide,
    toggle_off ⟨"u1"⟩ ⟨setKey emptyInteractions 7 "favorite", ""⟩ 7 "favorite" (by decide)⟩

/-- C4. Create or switch: if the map has no entry for `animeId` or holds a status
other than `status`, then after a successful `handleInteraction(animeId, status)`
the map holds the one status `status` for `animeId`, and the request sent is the
upsert of `(user.id, animeId, status)`. -/
theorem create_or_switch (u : User) (st : State) (animeId : AnimeId) (status : String)
    (hother : st.userInteractions animeId = none
      ∨ ∃ t, st.userInteractions animeId = some t ∧ t ≠ status) :
    (call (some u) st animeId status true).userInteractions animeId = some status
      ∧ issued (some u) st animeId status true
          = some (StoreWrite.upsert u.id animeId status) := by
  have hne : st.userInteractions animeId ≠ some status := by
    rcases hother with h | ⟨t, h, ht⟩
    · simp [h]
    · simp [h, ht]
  constructor
  · rw [call_ok_apply]
    simp [hne]
  · simp [issued, handleInteraction, hne]

/-- Witness of C4: user `u1` holds `watched` for anime 7 and requests `favorite`. -/
theorem create_or_switch_witness :
    ((State.mk (setKey emptyInteractions 7 "watched") "").userInteractions 7 = none
        ∨ ∃ t, (State.mk (setKey emptyInteractions 7 "watched") "").userInteractions 7 = some t
            ∧ t ≠ "favorite")
      ∧ (call (some ⟨"u1"⟩) ⟨setKey emptyInteractions 7 "watched", ""⟩ 7 "favorite"
          true).userInteractions 7 = some "favorite"
      ∧ issued (some ⟨"u1"⟩) ⟨setKey emptyInteractions 7 "watched", ""⟩ 7 "favorite" true
          = some (StoreWrite.upsert "u1" 7 "favorite") :=
  ⟨Or.inr ⟨"watched", by decide, by decide⟩,
    create_or_switch ⟨"u1"⟩ ⟨setKey emptyInteractions 7 "watched", ""⟩ 7 "favorite"
      (Or.inr ⟨"watched", by decide, by decide⟩)⟩

/-- C5. Local/store convergence: with the backing table modelled as a map keyed
by `(user, subject)`, if the local map and the rows of the signed-in user agree
on a subject `b` before a call of `handleInteraction`, they agree on `b` after
the call, whether the request succeeds or fails; when it fails neither the local
map nor the table changes. -/
theorem local_store_agree (u : User) (st : State) (store : Store) (animeId : AnimeId)
    (status : String) (ok : Bool) (b : AnimeId)
    (hagree : st.userInteractions b = store (u.id, b)) :
    (call (some u) st animeId status ok).userInteractions b
        = storeAfter store (some u) st animeId status ok (u.id, b)
      ∧ (ok = false →
          (call (some u) st animeId status ok).userInteractions = st.userInteractions
            ∧ storeAfter store (some u) st animeId status ok = store) := by
  cases ok with
  | false =>
    have hs : storeAfter store (some u) st animeId status false = store := by
      by_cases h : st.userInteractions animeId = some status <;>
        simp [storeAfter, issued, handleInteraction, h, Store.apply]
    rw [call_failed_interactions, hs]
    exact ⟨hagree, fun _ => ⟨rfl, rfl⟩⟩
  | true =>
    refine ⟨?_, fun h => by cases h⟩
    rw [call_ok_apply]
    by_cases h : st.userInteractions animeId = some status <;>
      by_cases hb : b = animeId <;>
      simp [storeAfter, issued, handleInteraction, h, hb, Store.apply, hagree]

/-- Witness of C5: user `u1`, empty map and empty table, a successful request of
`watched` for anime 5, observed at subject 5. -/
theorem local_store_agree_witness :
    (State.mk emptyInteractions "").userInteractions 5 = emptyStore ("u1", 5)
      ∧ (call (some ⟨"u1"⟩) ⟨emptyInteractions, ""⟩ 5 "watched" true).userInteractions 5
          = storeAfter emptyStore (some ⟨"u1"⟩) ⟨emptyInteractions, ""⟩ 5 "watched" true
              ("u1", 5)
      ∧ (true = false →
          (call (some ⟨"u1"⟩) ⟨emptyInteractions, ""⟩ 5 "watched" true).userInteractions
              = (State.mk emptyInteractions "").userInteractions
            ∧ storeAfter emptyStore (some ⟨"u1"⟩) ⟨emptyInteractions, ""⟩ 5 "watched" true
              = emptyStore) :=
  ⟨rfl, local_store_agree ⟨"u1"⟩ ⟨emptyInteractions, ""⟩ emptyStore 5 "watched" true 5 rfl⟩

end AnimeBrowser

/-! ## Theorems: PostCard -/

namespace PostCard

/-- The like round trip of the specification: on a post with `likes = []`, the
user `U1` likes (`["U1"]` is written, the count is 1) and likes again (`[]` is
written, the count is 0). -/
theorem like_round_trip_empty :
    init ⟨1, some []⟩ (some ⟨"U1"⟩) = ⟨false, 0⟩
      ∧ request ⟨1, some []⟩ (some ⟨"U1"⟩) ⟨false, 0⟩ = some ["U1"]
      ∧ handleLike ⟨1, some []⟩ (some ⟨"U1"⟩) ⟨false, 0⟩ true = ⟨true, 1⟩
      ∧ request ⟨1, some []⟩ (some ⟨"U1"⟩) ⟨true, 1⟩ = some []
      ∧ handleLike ⟨1, some []⟩ (some ⟨"U1"⟩) ⟨true, 1⟩ true = ⟨false, 0⟩ := by
  decide

/-- The like round trip holds for a user who is not among the likers of the
post: the second successful call writes the original list and restores the
initial state. -/
theorem like_round_trip_of_not_mem (pid : Nat) (likes : List String) (u : User)
    (hnot : u.id ∉ likes) :
    request ⟨pid, some likes⟩ (some u)
        (handleLike ⟨pid, some likes⟩ (some u) (init ⟨pid, some likes⟩ (some u)) true)
        = some likes
      ∧ handleLike ⟨pid, some likes⟩ (some u)
          (handleLike ⟨pid, some likes⟩ (some u) (init ⟨pid, some likes⟩ (some u)) true) true
        = init ⟨pid, some likes⟩ (some u) := by
  have hf : likes.filter (fun id => id != u.id) = likes := by
    rw [List.filter_eq_self]
    intro a ha
    have : a ≠ u.id := fun h => hnot (h ▸ ha)
    simpa using this
  simp [handleLike, request, newLikes, init, settle, whileAwaiting, hnot, hf]

/-- C6 (the code at the failing input). On a post with `likes = ["U1"]` shown to
the user `U1`, the first successful `handleLike` writes `[]` (count 0) and the
second one writes `["U1", "U1"]` and sets the count to 2: neither the original
list `["U1"]` nor the original count 1 comes back. -/
theorem like_round_trip_liker :
    init ⟨1, some ["U1"]⟩ (some ⟨"U1"⟩) = ⟨true, 1⟩
      ∧ request ⟨1, some ["U1"]⟩ (some ⟨"U1"⟩) ⟨true, 1⟩ = some []
      ∧ handleLike ⟨1, some ["U1"]⟩ (some ⟨"U1"⟩) ⟨true, 1⟩ true = ⟨false, 0⟩
      ∧ request ⟨1, some ["U1"]⟩ (some ⟨"U1"⟩) ⟨false, 0⟩ = some ["U1", "U1"]
      ∧ handleLike ⟨1, some ["U1"]⟩ (some ⟨"U1"⟩) ⟨false, 0⟩ true = ⟨true, 2⟩ := by
  decide

/-- C7 (the code at the failing input). On a post with the duplicate-free list
`likes = ["U1", "U2"]` shown to the user `U1`, two successful `handleLike` calls
write `["U2"]` and then `["U1", "U2", "U1"]`, a list that holds `U1` twice. -/
theorem written_likes_duplicate :
    (["U1", "U2"] : List String).Nodup
      ∧ written ⟨1, some ["U1", "U2"]⟩ (some ⟨"U1"⟩)
          (init ⟨1, some ["U1", "U2"]⟩ (some ⟨"U1"⟩)) [true, true]
        = [["U2"], ["U1", "U2", "U1"]]
      ∧ ¬ (["U1", "U2", "U1"] : List String).Nodup := by
  decide

/-- C9. Rollback on failure: for every post, signed-in user and state, when the
request of `handleLike` fails, `isLiked` and `likeCount` after the call are
their values before the call. -/
theorem like_failed_unchanged (post : Post) (u : User) (st : State) :
    (handleLike post (some u) st false).isLiked = st.isLiked
      ∧ (handleLike post (some u) st false).likeCount = st.likeCount := by
  unfold handleLike
  cases request post (some u) st with
  | none => exact ⟨rfl, rfl⟩
  | some sent => exact ⟨rfl, rfl⟩

/-- C10 (counterexample). On a post with `likes = []` shown to the user `U1`,
`handleLike` sends `["U1"]` and predicts `isLiked = true`, `likeCount = 1`, but
the state while the request is in flight is still `isLiked = false`,
`likeCount = 0`. -/
theorem optimistic_apply_counterexample :
    request ⟨1, some []⟩ (some ⟨"U1"⟩) (init ⟨1, some []⟩ (some ⟨"U1"⟩)) = some ["U1"]
      ∧ predicted (init ⟨1, some []⟩ (some ⟨"U1"⟩)) ["U1"] = ⟨true, 1⟩
      ∧ whileAwaiting ⟨1, some []⟩ (some ⟨"U1"⟩) (init ⟨1, some []⟩ (some ⟨"U1"⟩))
          = ⟨false, 0⟩
      ∧ whileAwaiting ⟨1, some []⟩ (some ⟨"U1"⟩) (init ⟨1, some []⟩ (some ⟨"U1"⟩))
          ≠ predicted (init ⟨1, some []⟩ (some ⟨"U1"⟩)) ["U1"] := by
  decide

/-- C10 (amended). With `handleLike` in two steps, the state observed after the
request is sent and before its result arrives is the state before the call, and
its `isLiked` is not the predicted one; `isLiked` and `likeCount` take the
predicted values when the result arrives and is a success. -/
theorem apply_on_success_only (post : Post) (u : User) (st : State) (sent : List String)
    (hsent : request post (some u) st = some sent) :
    whileAwaiting post (some u) st = st
      ∧ (whileAwaiting post (some u) st).isLiked ≠ (predicted st sent).isLiked
      ∧ settle st (whileAwaiting post (some u) st) sent true = predicted st sent
      ∧ handleLike post (some u) st true = predicted st sent := by
  refine ⟨rfl, ?_, rfl, ?_⟩
  · simp [whileAwaiting, predicted]
  · simp [handleLike, hsent, settle, predicted]

/-- Witness of C10 (amended): the post with `likes = []` and the user `U1`. -/
theorem apply_on_success_only_witness :
    request ⟨1, some []⟩ (some ⟨"U1"⟩) ⟨false, 0⟩ = some ["U1"]
      ∧ whileAwaiting ⟨1, some []⟩ (some ⟨"U1"⟩) ⟨false, 0⟩ = ⟨false, 0⟩
      ∧ (whileAwaiting ⟨1, some []⟩ (some ⟨"U1"⟩) ⟨false, 0⟩).isLiked
          ≠ (predicted ⟨false, 0⟩ ["U1"]).isLiked
      ∧ settle ⟨false, 0⟩ (whileAwaiting ⟨1, some []⟩ (some ⟨"U1"⟩) ⟨false, 0⟩) ["U1"] true
          = predicted ⟨false, 0⟩ ["U1"]
      ∧ handleLike ⟨1, some []⟩ (some ⟨"U1"⟩) ⟨false, 0⟩ true = predicted ⟨false, 0⟩ ["U1"] :=
  ⟨by decide, apply_on_success_only ⟨1, some []⟩ ⟨"U1"⟩ ⟨false, 0⟩ ["U1"] (by decide)⟩

end PostCard

/-! ## Theorems: CommentSection -/

namespace CommentSection

/-- C8 (counterexample). A list that holds the comment with id 1, on the push
echo of the INSERT of that same comment, becomes a list with two comments of
id 1. -/
theorem insert_echo_counterexample :
    countId [⟨1, 10, "U1", "hello", "t0"⟩] 1 = 1
      ∧ onPayload [⟨1, 10, "U1", "hello", "t0"⟩] (Payload.insert ⟨1, 10, "U1", "hello", "t0"⟩)
          = [⟨1, 10, "U1", "hello", "t0"⟩, ⟨1, 10, "U1", "hello", "t0"⟩]
      ∧ countId (onPayload [⟨1, 10, "U1", "hello", "t0"⟩]
          (Payload.insert ⟨1, 10, "U1", "hello", "t0"⟩)) 1 ≠ 1 := by
  decide

/-- C8 (amended). The push handler appends the row of an INSERT event without
looking for its id: the number of comments with that id grows by one, so the
result has exactly one of them precisely when the list had none. -/
theorem insert_appends (prev : List Comment) (new : Comment) :
    onPayload prev (Payload.insert new) = prev ++ [new]
      ∧ countId (onPayload prev (Payload.insert new)) new.id = countId prev new.id + 1
      ∧ (countId (onPayload prev (Payload.insert new)) new.id = 1 ↔ countId prev new.id = 0) := by
  have h : countId (onPayload prev (Payload.insert new)) new.id = countId prev new.id + 1 := by
    simp [onPayload, countId, List.countP_append]
  exact ⟨rfl, h, by omega⟩

end CommentSection

/-! ## Theorems: CommentSection, delete and order -/

namespace CommentSection

/-- C11. Delete of an absent id is a no-op: when no comment of the list has the
id of the DELETE event, the push handler (a total function) returns the input
list, same elements in the same order. -/
theorem delete_absent_id (prev : List Comment) (oldId : Nat)
    (habsent : ∀ c ∈ prev, c.id ≠ oldId) :
    onPayload prev (Payload.delete oldId) = prev := by
  simp only [onPayload]
  rw [List.filter_eq_self]
  intro c hc
  simpa using habsent c hc

/-- Witness of C11: a list with the comments 1 and 2 and a DELETE of id 3. -/
theorem delete_absent_id_witness :
    (∀ c ∈ ([⟨1, 10, "U1", "a", "t0"⟩, ⟨2, 10, "U2", "b", "t1"⟩] : List Comment), c.id ≠ 3)
      ∧ onPayload [⟨1, 10, "U1", "a", "t0"⟩, ⟨2, 10, "U2", "b", "t1"⟩] (Payload.delete 3)
          = [⟨1, 10, "U1", "a", "t0"⟩, ⟨2, 10, "U2", "b", "t1"⟩] :=
  ⟨by decide,
    delete_absent_id [⟨1, 10, "U1", "a", "t0"⟩, ⟨2, 10, "U2", "b", "t1"⟩] 3 (by decide)⟩

/-- C12. Delete removes by id: after a DELETE event with id `oldId` the list has
no comment with that id, it is a sublist of the previous list (nothing added,
relative order kept) in which every comment with another id occurs as often as
before, and a second delivery of the same event changes nothing. -/
theorem delete_removes_id (prev : List Comment) (oldId : Nat) :
    (∀ c ∈ onPayload prev (Payload.delete oldId), c.id ≠ oldId)
      ∧ (onPayload prev (Payload.delete oldId)).Sublist prev
      ∧ (∀ c : Comment, c.id ≠ oldId →
          (onPayload prev (Payload.delete oldId)).count c = prev.count c)
      ∧ onPayload (onPayload prev (Payload.delete oldId)) (Payload.delete oldId)
          = onPayload prev (Payload.delete oldId) := by
  refine ⟨?_, ?_, ?_, ?_⟩
  · intro c hc
    simp only [onPayload, List.mem_filter] at hc
    simpa using hc.2
  · exact List.filter_sublist prev
  · intro c hc
    simp only [onPayload]
    exact List.count_filter (by simpa using hc)
  · simp [onPayload, List.filter_filter]

/-- C13 (counterexample). A one-comment list, trivially in ascending creation
order, receives the INSERT of a row created a day earlier: the row is put last
and the list is no longer in ascending creation order. -/
theorem insert_order_counterexample :
    createdAscending [⟨1, 10, "U1", "a", "2024-01-02T10:00:00Z"⟩]
      ∧ onPayload [⟨1, 10, "U1", "a", "2024-01-02T10:00:00Z"⟩]
          (Payload.insert ⟨2, 10, "U2", "b", "2024-01-01T10:00:00Z"⟩)
        = [⟨1, 10, "U1", "a", "2024-01-02T10:00:00Z"⟩,
            ⟨2, 10, "U2", "b", "2024-01-01T10:00:00Z"⟩]
      ∧ ¬ createdAscending (onPayload [⟨1, 10, "U1", "a", "2024-01-02T10:00:00Z"⟩]
          (Payload.insert ⟨2, 10, "U2", "b", "2024-01-01T10:00:00Z"⟩)) := by
  decide

/-- C13 (amended). On a list in ascending creation order, the push handler puts
the row of an INSERT event last, whatever its timestamp; the result is in
ascending creation order exactly when no comment of the list was created after
the inserted row. -/
theorem insert_order_iff (prev : List Comment) (new : Comment)
    (hsorted : createdAscending prev) :
    onPayload prev (Payload.insert new) = prev ++ [new]
      ∧ (createdAscending (onPayload prev (Payload.insert new))
          ↔ ∀ c ∈ prev, createdBefore c new) := by
  refine ⟨rfl, ?_⟩
  simp only [onPayload, createdAscending, List.pairwise_append, List.mem_singleton]
  constructor
  · rintro ⟨_, _, h⟩ c hc
    exact h c hc new rfl
  · intro h
    exact ⟨hsorted, List.pairwise_singleton _ _, fun a ha b hb => hb ▸ h a ha⟩

/-- Witness of C13 (amended): a one-comment list and a row created a day later. -/
theorem insert_order_iff_witness :
    createdAscending [⟨1, 10, "U1", "a", "2024-01-02T10:00:00Z"⟩]
      ∧ onPayload [⟨1, 10, "U1", "a", "2024-01-02T10:00:00Z"⟩]
          (Payload.insert ⟨2, 10, "U2", "b", "2024-01-03T10:00:00Z"⟩)
        = [⟨1, 10, "U1", "a", "2024-01-02T10:00:00Z"⟩]
            ++ [⟨2, 10, "U2", "b", "2024-01-03T10:00:00Z"⟩]
      ∧ (createdAscending (onPayload [⟨1, 10, "U1", "a", "2024-01-02T10:00:00Z"⟩]
            (Payload.insert ⟨2, 10, "U2", "b", "2024-01-03T10:00:00Z"⟩))
          ↔ ∀ c ∈ ([⟨1, 10, "U1", "a", "2024-01-02T10:00:00Z"⟩] : List Comment),
              createdBefore c ⟨2, 10, "U2", "b", "2024-01-03T10:00:00Z"⟩) :=
  ⟨by decide,
    insert_order_iff [⟨1, 10, "U1", "a", "2024-01-02T10:00:00Z"⟩]
      ⟨2, 10, "U2", "b", "2024-01-03T10:00:00Z"⟩ (by decide)⟩

end CommentSection

/-! ## Theorems: Layout -/

namespace Layout

/-- C14 (counterexample). With one notification held, the pushed row is put
first: the result is not the previous list followed by the new row. -/
theorem notification_append_counterexample :
    onPayload [⟨1, "first", "t0"⟩] ⟨2, "second", "t1"⟩
        = [⟨2, "second", "t1"⟩, ⟨1, "first", "t0"⟩]
      ∧ onPayload [⟨1, "first", "t0"⟩] ⟨2, "second", "t1"⟩
        ≠ [⟨1, "first", "t0"⟩] ++ [⟨2, "second", "t1"⟩] := by
  decide

/-- C14 (amended). For every notification list and every pushed event, the
handler returns the new row of the event as the first element, followed by the
previous list, unchanged and in the same order. -/
theorem notification_prepended (prev : List Notification) (new : Notification) :
    onPayload prev new = [new] ++ prev
      ∧ (onPayload prev new).head? = some new
      ∧ (onPayload prev new).tail = prev := by
  simp [onPayload]

end Layout

/-! ## Theorems: teardown of push channels -/

namespace Scope

/-- The effect of `Layout` hands React a cleanup that closes `notifications`:
once its scope is torn down, no delivered event changes the notifications. -/
theorem layout_teardown_safe (user : Option User) (ns : List Layout.Notification)
    (topic : Topic) (new : Layout.Notification) :
    (deliver Layout.onPayload topic new (teardown (start (Layout.effect user) ns))).state
      = ns := by
  cases user with
  | none => simp [Layout.effect, start, teardown, deliver]
  | some u => simp [Layout.effect, start, teardown, deliver]

/-- C15 (the code at the failing input). The effect of `CommentSection` for post 1
opens `comments:1` and hands React no cleanup; after the teardown of its scope
the channel is still open, and a delivered INSERT still adds its row to the
comments. -/
theorem comments_teardown_leak :
    (CommentSection.effect 1).opened = [Topic.comments 1]
      ∧ (CommentSection.effect 1).cleanup = none
      ∧ (teardown (start (CommentSection.effect 1) ([] : List CommentSection.Comment))).channels
          = [Topic.comments 1]
      ∧ (deliver CommentSection.onPayload (Topic.comments 1)
            (CommentSection.Payload.insert ⟨7, 1, "U1", "late", "t0"⟩)
            (teardown (start (CommentSection.effect 1) []))).state
          = [⟨7, 1, "U1", "late", "t0"⟩] := by
  decide

end Scope

/-! ## Theorems: AnimeBrowser, catalogue pages -/

namespace AnimeBrowser

/-- A fetch that ran to its end leaves the list replaced (page 1) or extended
(later pages) by the mapped items, `hasMore` set to the flag of the answer, and
`loading` false; the error message and the page number are untouched. -/
theorem fetchAnime_of_succeeded (page : Nat) (response : Response) (st : Catalog)
    (hok : succeeded response = true) :
    (fetchAnime page response st).animeList
        = (if page = 1 then itemsOf response else st.animeList ++ itemsOf response)
      ∧ response.has_next_page = some (fetchAnime page response st).hasMore
      ∧ (fetchAnime page response st).loading = false
      ∧ (fetchAnime page response st).error = st.error
      ∧ (fetchAnime page response st).page = st.page := by
  simp only [succeeded, Bool.and_eq_true] at hok
  obtain ⟨⟨h1, h2⟩, h3⟩ := hok
  obtain ⟨items, hitems⟩ := Option.isSome_iff_exists.mp h2
  obtain ⟨flag, hflag⟩ := Option.isSome_iff_exists.mp h3
  simp [fetchAnime, fetchAnimeTry, itemsOf, h1, hitems, hflag]

/-- Pages fetched from a page number above 1 are appended, in order, to the list
held before. -/
theorem fetchPages_append (responses : List Response) :
    ∀ (first : Nat) (st : Catalog), 1 < first →
      (∀ r ∈ responses, succeeded r = true) →
      (fetchPages first responses st).animeList
        = st.animeList ++ (responses.map itemsOf).flatten := by
  induction responses with
  | nil => intro first st _ _; simp [fetchPages]
  | cons r rs ih =>
    intro first st hfirst hok
    have hr := (fetchAnime_of_succeeded first r st (hok r (List.mem_cons_self r rs))).1
    have hne : first ≠ 1 := by omega
    rw [if_neg hne] at hr
    simp only [fetchPages]
    rw [ih (first + 1) _ (by omega) (fun x hx => hok x (List.mem_cons_of_mem r hx)), hr]
    simp [List.append_assoc]

/-- C16. Pagination merge: when the pages 1..N (N at least 1) are fetched in
order and every fetch succeeds, the held list is the concatenation, in page
order, of the mapped items of the pages, whatever the list held before page 1. -/
theorem pagination_merge (st : Catalog) (responses : List Response)
    (hne : responses ≠ []) (hok : ∀ r ∈ responses, succeeded r = true) :
    (fetchPages 1 responses st).animeList = (responses.map itemsOf).flatten := by
  cases responses with
  | nil => exact absurd rfl hne
  | cons r rs =>
    have hr := (fetchAnime_of_succeeded 1 r st (hok r (List.mem_cons_self r rs))).1
    rw [if_pos rfl] at hr
    simp only [fetchPages]
    rw [fetchPages_append rs 2 _ (by omega) (fun x hx => hok x (List.mem_cons_of_mem r hx)), hr]
    simp

/-- Witness of C16: two pages of one item each, loaded over a list that held
another item. -/
theorem pagination_merge_witness :
    ([⟨true, 200, some [⟨1, "A", some none, none, none, none, "Finished", some none, some []⟩],
          some true⟩,
        ⟨true, 200, some [⟨2, "B", some none, none, none, none, "Airing", some none, some []⟩],
          some false⟩] : List Response) ≠ []
      ∧ (∀ r ∈ ([⟨true, 200,
            some [⟨1, "A", some none, none, none, none, "Finished", some none, some []⟩],
            some true⟩,
          ⟨true, 200, some [⟨2, "B", some none, none, none, none, "Airing", some none, some []⟩],
            some false⟩] : List Response), succeeded r = true)
      ∧ (fetchPages 1
          [⟨true, 200, some [⟨1, "A", some none, none, none, none, "Finished", some none, some []⟩],
            some true⟩,
          ⟨true, 200, some [⟨2, "B", some none, none, none, none, "Airing", some none, some []⟩],
            some false⟩]
          ⟨[⟨9, "Z", none, none, none, none, "Finished", none, ""⟩], false, "", 1, true⟩).animeList
        = (([⟨true, 200,
              some [⟨1, "A", some none, none, none, none, "Finished", some none, some []⟩],
              some true⟩,
            ⟨true, 200,
              some [⟨2, "B", some none, none, none, none, "Airing", some none, some []⟩],
              some false⟩] : List Response).map itemsOf).flatten :=
  ⟨by decide, by decide, pagination_merge _ _ (by decide) (by decide)⟩

/-- C17 (counterexample). The held list has the single anime 1; page 2 is fetched
with success and repeats anime 1: the list produced holds the id 1 twice. -/
theorem merge_dedup_counterexample :
    (ids [⟨1, "A", none, none, none, none, "Finished", none, ""⟩]).Nodup
      ∧ succeeded ⟨true, 200,
          some [⟨1, "A", some none, none, none, none, "Finished", some none, some []⟩],
          some true⟩ = true
      ∧ ids (fetchAnime 2
          ⟨true, 200, some [⟨1, "A", some none, none, none, none, "Finished", some none, some []⟩],
            some true⟩
          ⟨[⟨1, "A", none, none, none, none, "Finished", none, ""⟩], false, "", 2, true⟩).animeList
        = [1, 1]
      ∧ ¬ (ids (fetchAnime 2
          ⟨true, 200, some [⟨1, "A", some none, none, none, none, "Finished", some none, some []⟩],
            some true⟩
          ⟨[⟨1, "A", none, none, none, none, "Finished", none, ""⟩], false, "", 2, true⟩).animeList
          ).Nodup := by
  decide

/-- C17 (amended). For a held list without duplicate ids and a page above 1
fetched with success, the list produced is the held list followed by the mapped
items of the page, nothing removed; it has no two items with the same id exactly
when the ids of the page are pairwise distinct and none of them is held
already. -/
theorem merge_nodup_iff (page : Nat) (response : Response) (st : Catalog)
    (hpage : 1 < page) (hok : succeeded response = true)
    (hheld : (ids st.animeList).Nodup) :
    (fetchAnime page response st).animeList = st.animeList ++ itemsOf response
      ∧ ((ids (fetchAnime page response st).animeList).Nodup
          ↔ (ids (itemsOf response)).Nodup
            ∧ ∀ a ∈ itemsOf response, a.id ∉ ids st.animeList) := by
  have hr := (fetchAnime_of_succeeded page response st hok).1
  have hne : page ≠ 1 := by omega
  rw [if_neg hne] at hr
  refine ⟨hr, ?_⟩
  rw [hr]
  simp only [ids, List.map_append, List.nodup_append, List.disjoint_left]
  constructor
  · rintro ⟨_, h2, h3⟩
    refine ⟨h2, fun a ha hmem => h3 hmem (List.mem_map_of_mem _ ha)⟩
  · rintro ⟨h2, h3⟩
    refine ⟨hheld, h2, fun x hx hx2 => ?_⟩
    obtain ⟨a, ha, rfl⟩ := List.mem_map.mp hx2
    exact h3 a ha hx

/-- Witness of C17 (amended): the held list has anime 1 and page 2 brings
anime 2. -/
theorem merge_nodup_iff_witness :
    (fetchAnime 2
        ⟨true, 200, some [⟨2, "B", some none, none, none, none, "Airing", some none, some []⟩],
          some true⟩
        ⟨[⟨1, "A", none, none, none, none, "Finished", none, ""⟩], false, "", 2, true⟩).animeList
      = (Catalog.mk [⟨1, "A", none, none, none, none, "Finished", none, ""⟩] false "" 2
            true).animeList
          ++ itemsOf ⟨true, 200,
              some [⟨2, "B", some none, none, none, none, "Airing", some none, some []⟩],
              some true⟩
      ∧ ((ids (fetchAnime 2
            ⟨true, 200,
              some [⟨2, "B", some none, none, none, none, "Airing", some none, some []⟩],
              some true⟩
            ⟨[⟨1, "A", none, none, none, none, "Finished", none, ""⟩], false, "", 2,
              true⟩).animeList).Nodup
          ↔ (ids (itemsOf ⟨true, 200,
                some [⟨2, "B", some none, none, none, none, "Airing", some none, some []⟩],
                some true⟩)).Nodup
            ∧ ∀ a ∈ itemsOf ⟨true, 200,
                some [⟨2, "B", some none, none, none, none, "Airing", some none, some []⟩],
                some true⟩,
              a.id ∉ ids (Catalog.mk [⟨1, "A", none, none, none, none, "Finished", none, ""⟩]
                false "" 2 true).animeList) :=
  merge_nodup_iff 2
    ⟨true, 200, some [⟨2, "B", some none, none, none, none, "Airing", some none, some []⟩],
      some true⟩
    ⟨[⟨1, "A", none, none, none, none, "Finished", none, ""⟩], false, "", 2, true⟩
    (by decide) (by decide) (by decide)

/-- C18. The guard of `loadMore`: while a fetch is in flight (`loading`) or
`hasMore` is false, `loadMore` changes no state cell; otherwise it adds exactly
one to the page number and changes nothing else; after a fetch that succeeded,
`hasMore` is the `has_next_page` flag of the answer. -/
theorem loadMore_guard (st : Catalog) :
    ((st.loading = true ∨ st.hasMore = false) → loadMore st = st)
      ∧ ((st.loading = false ∧ st.hasMore = true) →
          loadMore st = { st with page := st.page + 1 })
      ∧ (∀ (page : Nat) (response : Response) (flag : Bool),
          succeeded response = true → response.has_next_page = some flag →
          (fetchAnime page response st).hasMore = flag) := by
  refine ⟨?_, ?_, ?_⟩
  · rintro (h | h) <;> simp [loadMore, h]
  · rintro ⟨h1, h2⟩
    simp [loadMore, h1, h2]
  · intro page response flag hok hflag
    have h := (fetchAnime_of_succeeded page response st hok).2.1
    rw [hflag] at h
    exact (Option.some.inj h).symm

/-- Witness of C18: `loadMore` during a fetch, `loadMore` on an idle list with
more pages, and a successful fetch of a last page. -/
theorem loadMore_guard_witness :
    loadMore ⟨[], true, "", 1, true⟩ = ⟨[], true, "", 1, true⟩
      ∧ loadMore ⟨[], false, "", 1, true⟩ = ⟨[], false, "", 2, true⟩
      ∧ (fetchAnime 1 ⟨true, 200, some [], some false⟩ ⟨[], false, "", 1, true⟩).hasMore
          = false :=
  ⟨(loadMore_guard ⟨[], true, "", 1, true⟩).1 (Or.inl rfl),
    (loadMore_guard ⟨[], false, "", 1, true⟩).2.1 ⟨rfl, rfl⟩,
    (loadMore_guard ⟨[], false, "", 1, true⟩).2.2 1 ⟨true, 200, some [], some false⟩ false
      (by decide) rfl⟩

/-- C19. A failed fetch is atomic: when the answer is not OK, or the mapping of
its items throws (an item without a required object, or no `data` array), the
held list and `hasMore` (and the page number) are what they were before the
call, the error message is set and `loading` is false. -/
theorem fetch_failed_atomic (page : Nat) (response : Response) (st : Catalog)
    (hfail : response.ok = false ∨ newAnime response = none) :
    (fetchAnime page response st).animeList = st.animeList
      ∧ (fetchAnime page response st).hasMore = st.hasMore
      ∧ (fetchAnime page response st).page = st.page
      ∧ (fetchAnime page response st).error = "Failed to load anime list"
      ∧ (fetchAnime page response st).loading = false := by
  rcases hfail with h | h
  · simp [fetchAnime, fetchAnimeTry, h]
  · cases hokc : response.ok <;> simp [fetchAnime, fetchAnimeTry, h, hokc]

/-- Witness of C19: page 2 answers with a first item that maps and a second item
without `images.jpg`; the held anime 9 stays alone in the list. -/
theorem fetch_failed_atomic_witness :
    ((Response.mk true 200
          (some [⟨1, "A", some none, none, none, none, "Finished", some none, some []⟩,
            ⟨2, "B", none, none, none, none, "Airing", some none, some []⟩])
          (some false)).ok = false
        ∨ newAnime ⟨true, 200,
            some [⟨1, "A", some none, none, none, none, "Finished", some none, some []⟩,
              ⟨2, "B", none, none, none, none, "Airing", some none, some []⟩],
            some false⟩ = none)
      ∧ (fetchAnime 2
          ⟨true, 200,
            some [⟨1, "A", some none, none, none, none, "Finished", some none, some []⟩,
              ⟨2, "B", none, none, none, none, "Airing", some none, some []⟩],
            some false⟩
          ⟨[⟨9, "Z", none, none, none, none, "Finished", none, ""⟩], false, "", 2,
            true⟩).animeList
        = (Catalog.mk [⟨9, "Z", none, none, none, none, "Finished", none, ""⟩] false "" 2
            true).animeList
      ∧ (fetchAnime 2
          ⟨true, 200,
            some [⟨1, "A", some none, none, none, none, "Finished", some none, some []⟩,
              ⟨2, "B", none, none, none, none, "Airing", some none, some []⟩],
            some false⟩
          ⟨[⟨9, "Z", none, none, none, none, "Finished", none, ""⟩], false, "", 2,
            true⟩).hasMore
        = (Catalog.mk [⟨9, "Z", none, none, none, none, "Finished", none, ""⟩] false "" 2
            true).hasMore
      ∧ (fetchAnime 2
          ⟨true, 200,
            some [⟨1, "A", some none, none, none, none, "Finished", some none, some []⟩,
              ⟨2, "B", none, none, none, none, "Airing", some none, some []⟩],
            some false⟩
          ⟨[⟨9, "Z", none, none, none, none, "Finished", none, ""⟩], false, "", 2,
            true⟩).page
        = (Catalog.mk [⟨9, "Z", none, none, none, none, "Finished", none, ""⟩] false "" 2
            true).page
      ∧ (fetchAnime 2
          ⟨true, 200,
            some [⟨1, "A", some none, none, none, none, "Finished", some none, some []⟩,
              ⟨2, "B", none, none, none, none, "Airing", some none, some []⟩],
            some false⟩
          ⟨[⟨9, "Z", none, none, none, none, "Finished", none, ""⟩], false, "", 2,
            true⟩).error
        = "Failed to load anime list"
      ∧ (fetchAnime 2
          ⟨true, 200,
            some [⟨1, "A", some none, none, none, none, "Finished", some none, some []⟩,
              ⟨2, "B", none, none, none, none, "Airing", some none, some []⟩],
            some false⟩
          ⟨[⟨9, "Z", none, none, none, none, "Finished", none, ""⟩], false, "", 2,
            true⟩).loading
        = false :=
  ⟨Or.inr (by decide),
    fetch_failed_atomic 2
      ⟨true, 200,
        some [⟨1, "A", some none, none, none, none, "Finished", some none, some []⟩,
          ⟨2, "B", none, none, none, none, "Airing", some none, some []⟩],
        some false⟩
      ⟨[⟨9, "Z", none, none, none, none, "Finished", none, ""⟩], false, "", 2, true⟩
      (Or.inr (by decide))⟩

/-- An answer that is OK and maps, but has no `pagination` object, throws after
`setAnimeList`: the list is already replaced or extended, `hasMore` keeps its
value and the error message is set. -/
theorem fetch_without_pagination (page : Nat) (response : Response) (st : Catalog)
    (items : List Anime) (hok : response.ok = true) (hitems : newAnime response = some items)
    (hnone : response.has_next_page = none) :
    (fetchAnime page response st).animeList
        = (if page = 1 then items else st.animeList ++ items)
      ∧ (fetchAnime page response st).hasMore = st.hasMore
      ∧ (fetchAnime page response st).error = "Failed to load anime list"
      ∧ (fetchAnime page response st).loading = false := by
  simp [fetchAnime, fetchAnimeTry, hok, hitems, hnone]

end AnimeBrowser

/-! ## Theorems: Profile -/

namespace Profile

/-- On a route parameter that is not the empty string, `!userId` holds exactly
when the parameter is absent. -/
theorem notUserId_iff (userId : Option String) (hparam : userId ≠ some "") :
    notUserId userId = true ↔ userId = none := by
  cases userId with
  | none => simp [notUserId]
  | some s =>
    have : s ≠ "" := fun h => hparam (by rw [h])
    simp [notUserId, this]

/-- C20. Create-if-missing only for the own profile: for a route parameter that
is absent or a non-empty string, `fetchProfile` issues the profile insert if and
only if the read failed with code `PGRST116`, a user is signed in, and `userId`
is absent or is the id of that user; in every other case of a failed read no
insert is issued, the profile keeps its value (unset) and the error message is
set. -/
theorem create_only_own_profile (user : Option SessionUser) (userId : Option String)
    (read : ReadResult) (create : InsertResult) (st : State)
    (hparam : userId ≠ some "") :
    ((fetchProfile user userId read create st).insert.isSome = true
        ↔ read = ReadResult.error "PGRST116"
          ∧ ∃ u, user = some u ∧ (userId = none ∨ userId = some u.id))
      ∧ (∀ code, read = ReadResult.error code →
          ¬ (code = "PGRST116" ∧ ∃ u, user = some u ∧ (userId = none ∨ userId = some u.id)) →
          (fetchProfile user userId read create st).insert = none
            ∧ (fetchProfile user userId read create st).state.profile = st.profile
            ∧ (fetchProfile user userId read create st).state.error
                = "Failed to load profile") := by
  have hnot := notUserId_iff userId hparam
  constructor
  · cases read with
    | data row => simp [fetchProfile, fetchProfileTry]
    | error code =>
      by_cases hcode : code = "PGRST116"
      · cases user with
        | none => simp [fetchProfile, fetchProfileTry, hcode]
        | some u =>
          by_cases hown : userId = some u.id
          · cases create <;> simp [fetchProfile, fetchProfileTry, hcode, hown]
          · by_cases hnone : userId = none
            · cases create <;>
                simp [fetchProfile, fetchProfileTry, hcode, hnone, notUserId]
            · have hn : notUserId userId = false := by
                cases h : notUserId userId
                · rfl
                · exact absurd (hnot.mp h) hnone
              simp [fetchProfile, fetchProfileTry, hcode, hown, hnone, hn]
      · simp [fetchProfile, fetchProfileTry, hcode]
  · intro code hread hcond
    subst hread
    by_cases hcode : code = "PGRST116"
    · cases user with
      | none => simp [fetchProfile, fetchProfileTry, hcode]
      | some u =>
        have hc : ¬ (userId = none ∨ userId = some u.id) := fun h =>
          hcond ⟨hcode, u, rfl, h⟩
        have hown : userId ≠ some u.id := fun h => hc (Or.inr h)
        have hnone : userId ≠ none := fun h => hc (Or.inl h)
        have hn : notUserId userId = false := by
          cases h : notUserId userId
          · rfl
          · exact absurd (hnot.mp h) hnone
        simp [fetchProfile, fetchProfileTry, hcode, hown, hn]
    · simp [fetchProfile, fetchProfileTry, hcode]

/-- Witness of C20: the user `u1` opens `/profile/u1` and the read answers
`PGRST116`, so the insert is issued; the same user opens `/profile/u2` with the
same answer, and no insert is issued, the profile stays unset and the error
message is set. -/
theorem create_only_own_profile_witness :
    (some "u1" : Option String) ≠ some ""
      ∧ (fetchProfile (some ⟨"u1", "bob@x.org"⟩) (some "u1") (ReadResult.error "PGRST116")
          (InsertResult.data ⟨"u1", "bob", "a.png", "bio"⟩) ⟨none, true, ""⟩).insert.isSome
          = true
      ∧ (some "u2" : Option String) ≠ some ""
      ∧ (fetchProfile (some ⟨"u1", "bob@x.org"⟩) (some "u2") (ReadResult.error "PGRST116")
            (InsertResult.data ⟨"u1", "bob", "a.png", "bio"⟩) ⟨none, true, ""⟩).insert = none
      ∧ (fetchProfile (some ⟨"u1", "bob@x.org"⟩) (some "u2") (ReadResult.error "PGRST116")
            (InsertResult.data ⟨"u1", "bob", "a.png", "bio"⟩) ⟨none, true, ""⟩).state.profile
          = (State.mk none true "").profile
      ∧ (fetchProfile (some ⟨"u1", "bob@x.org"⟩) (some "u2") (ReadResult.error "PGRST116")
            (InsertResult.data ⟨"u1", "bob", "a.png", "bio"⟩) ⟨none, true, ""⟩).state.error
          = "Failed to load profile" :=
  ⟨by decide,
    (create_only_own_profile (some ⟨"u1", "bob@x.org"⟩) (some "u1")
      (ReadResult.error "PGRST116") (InsertResult.data ⟨"u1", "bob", "a.png", "bio"⟩)
      ⟨none, true, ""⟩ (by decide)).1.mpr ⟨rfl, ⟨"u1", "bob@x.org"⟩, rfl, Or.inr rfl⟩,
    by decide,
    (create_only_own_profile (some ⟨"u1", "bob@x.org"⟩) (some "u2")
      (ReadResult.error "PGRST116") (InsertResult.data ⟨"u1", "bob", "a.png", "bio"⟩)
      ⟨none, true, ""⟩ (by decide)).2 "PGRST116" rfl (by decide)⟩

/-- The run of `fetchProfile` of the first case above, evaluated: the row
inserted for `bob@x.org` has the username `bob`, and the created row becomes the
profile. -/
theorem fetchProfile_creates_example :
    fetchProfile (some ⟨"u1", "bob@x.org"⟩) (some "u1") (ReadResult.error "PGRST116")
        (InsertResult.data ⟨"u1", "bob", "a.png", "bio"⟩) ⟨none, true, ""⟩
      = { queried := some "u1"
          insert := some ⟨"u1", "bob", "https://i.imgur.com/1Q9ZQ9r.png", "New anime enthusiast"⟩
          state := ⟨some ⟨"u1", "bob", "a.png", "bio"⟩, false, ""⟩ } := by
  decide

end Profile

/-! ## Theorems: avatar uploads -/

namespace Upload

/-- A list of characters without a dot is split into itself alone. -/
theorem splitDot_of_not_mem (cs : List Char) (h : '.' ∉ cs) : splitDot cs = [cs] := by
  induction cs with
  | nil => rfl
  | cons c cs ih =>
    have hc : c ≠ '.' := fun e => h (by simp [e])
    have hcs : '.' ∉ cs := fun e => h (List.mem_cons_of_mem c e)
    simp [splitDot, ih hcs, hc]

/-- A list of characters with a dot is split into two pieces at least. -/
theorem splitDot_of_mem (cs : List Char) (h : '.' ∈ cs) :
    ∃ p q r, splitDot cs = p :: q :: r := by
  induction cs with
  | nil => cases h
  | cons c cs ih =>
    by_cases hcs : '.' ∈ cs
    · obtain ⟨p, q, r, hs⟩ := ih hcs
      by_cases hc : c = '.'
      · exact ⟨[], p, q :: r, by simp [splitDot, hs, hc]⟩
      · exact ⟨c :: p, q, r, by simp [splitDot, hs, hc]⟩
    · have hc : c = '.' := by
        rcases List.mem_cons.mp h with e | e
        · exact e.symm
        · exact absurd e hcs
      exact ⟨[], cs, [], by simp [splitDot, splitDot_of_not_mem cs hcs, hc]⟩

/-- The last piece of `split('.')` is the text after the last dot, the whole
text when there is no dot. -/
theorem getLast_splitDot (cs : List Char) :
    (splitDot cs).getLast?.getD [] = afterLastDot cs := by
  induction cs with
  | nil => rfl
  | cons c cs ih =>
    by_cases hcs : '.' ∈ cs
    · obtain ⟨p, q, r, hs⟩ := splitDot_of_mem cs hcs
      rw [hs] at ih
      by_cases hc : c = '.'
      · simp only [splitDot, hs, hc, afterLastDot, hcs, if_true]
        rw [← ih]
        simp [List.getLast?_cons_cons]
      · simp only [splitDot, hs, hc, afterLastDot, hcs, if_true, if_false]
        rw [← ih]
        simp [List.getLast?_cons_cons]
    · by_cases hc : c = '.'
      · simp [splitDot, splitDot_of_not_mem cs hcs, hc, afterLastDot, hcs]
      · simp [splitDot, splitDot_of_not_mem cs hcs, hc, afterLastDot, hcs]

/-- The extension read by the handlers, `file.name.split('.').pop()`, is the text
after the last dot of the name (the whole name when it has no dot). -/
theorem fileExt_eq_afterLastDot (name : String) :
    fileExt name = String.mk (afterLastDot name.data) := by
  simp [fileExt, getLast_splitDot]

/-- A selected file with a valid extension: `Profile.handleImageUpload` requests
its upload and ends with `uploading` false and the progress at 0. -/
theorem handleImageUpload_valid (user : Profile.SessionUser) (file : File) (rest : List File)
    (now : Nat) (uploadError updateError : Option String) (st : Profile.UploadState)
    (hv : toLowerCase (fileExt file.name) ∈ validExtensions) :
    (Profile.handleImageUpload user (file :: rest) now uploadError updateError st).upload
        = some ⟨"profile-pictures", user.id ++ "/" ++ toString now ++ "." ++ fileExt file.name,
            file⟩
      ∧ (Profile.handleImageUpload user (file :: rest) now uploadError updateError
          st).state.uploading = false
      ∧ (Profile.handleImageUpload user (file :: rest) now uploadError updateError
          st).state.uploadProgress = 0 := by
  cases uploadError <;> cases updateError <;>
    simp [Profile.handleImageUpload, Profile.handleImageUploadTry, hv]

/-- A selected file with another extension: `Profile.handleImageUpload` requests
nothing, reports the invalid-type message and ends with `uploading` false and
the progress at 0. -/
theorem handleImageUpload_invalid (user : Profile.SessionUser) (file : File)
    (rest : List File) (now : Nat) (uploadError updateError : Option String)
    (st : Profile.UploadState) (hv : toLowerCase (fileExt file.name) ∉ validExtensions) :
    (Profile.handleImageUpload user (file :: rest) now uploadError updateError st).upload = none
      ∧ (Profile.handleImageUpload user (file :: rest) now uploadError updateError
          st).state.error = "Invalid file type. Please upload an image file."
      ∧ (Profile.handleImageUpload user (file :: rest) now uploadError updateError
          st).state.uploading = false
      ∧ (Profile.handleImageUpload user (file :: rest) now uploadError updateError
          st).state.uploadProgress = 0 := by
  simp [Profile.handleImageUpload, Profile.handleImageUploadTry, hv]

/-- A selected file: `ProfilePictureUpload.handleUpload` requests its upload to
the bucket `avatars`, whatever the file is. -/
theorem handleUpload_cons (userId : String) (file : File) (rest : List File)
    (random : String) (uploadError updateError : Option String)
    (st : ProfilePictureUpload.State) :
    (ProfilePictureUpload.handleUpload userId (file :: rest) random uploadError updateError
        st).upload
      = some ⟨"avatars", userId ++ "-" ++ random ++ "." ++ fileExt file.name, file⟩ := by
  cases uploadError <;> cases updateError <;>
    simp [ProfilePictureUpload.handleUpload, ProfilePictureUpload.handleUploadTry]

/-- C21 (counterexample). `Profile.handleImageUpload` requests the upload of a
PNG image of 10 MB, and `ProfilePictureUpload.handleUpload` requests the upload
of a PDF document: neither file is a JPEG, PNG or GIF image of at most 5 MB. -/
theorem upload_acceptance_counterexample :
    acceptable ⟨"big.png", "image/png", 10485760⟩ = false
      ∧ (Profile.handleImageUpload ⟨"u1", "bob@x.org"⟩ [⟨"big.png", "image/png", 10485760⟩] 0
          none none ⟨false, 0, ""⟩).upload.isSome = true
      ∧ acceptable ⟨"notes.pdf", "application/pdf", 100⟩ = false
      ∧ (ProfilePictureUpload.handleUpload "u1" [⟨"notes.pdf", "application/pdf", 100⟩] "0.5"
          none none ⟨false, none⟩).upload.isSome = true := by
  decide

/-- When each handler requests an upload, what it reports otherwise, and which
file it sends. -/
theorem upload_issued_core (user : Profile.SessionUser) (userId : String) (files : List File)
    (now : Nat) (random : String) (uploadError updateError : Option String)
    (st : Profile.UploadState) (st2 : ProfilePictureUpload.State) :
    ((Profile.handleImageUpload user files now uploadError updateError st).upload.isSome = true
        ↔ ∃ file, files.head? = some file
            ∧ toLowerCase (fileExt file.name) ∈ ["jpg", "jpeg", "png", "gif"])
      ∧ (∀ file, files.head? = some file →
          toLowerCase (fileExt file.name) ∉ ["jpg", "jpeg", "png", "gif"] →
          (Profile.handleImageUpload user files now uploadError updateError st).state.error
            = "Invalid file type. Please upload an image file.")
      ∧ ((ProfilePictureUpload.handleUpload userId files random uploadError updateError
            st2).upload.isSome = true ↔ files ≠ [])
      ∧ (files = [] →
          (ProfilePictureUpload.handleUpload userId files random uploadError updateError
            st2).state.error = some "You must select an image to upload.")
      ∧ ((Profile.handleImageUpload user files now uploadError updateError st).upload.isSome
            = true →
          (Profile.handleImageUpload user files now uploadError updateError st).upload.map
            (fun r => r.file) = files.head?)
      ∧ (ProfilePictureUpload.handleUpload userId files random uploadError updateError
          st2).upload.map (fun r => r.file) = files.head? := by
  cases files with
  | nil =>
    simp [Profile.handleImageUpload, Profile.handleImageUploadTry,
      ProfilePictureUpload.handleUpload, ProfilePictureUpload.handleUploadTry]
  | cons file rest =>
    have hpp := handleUpload_cons userId file rest random uploadError updateError st2
    by_cases hv : toLowerCase (fileExt file.name) ∈ validExtensions
    · have h := handleImageUpload_valid user file rest now uploadError updateError st hv
      refine ⟨?_, ?_, ?_, ?_, ?_, ?_⟩
      · rw [h.1]
        exact ⟨fun _ => ⟨file, rfl, hv⟩, fun _ => rfl⟩
      · intro f hf hnot
        cases hf
        exact absurd hv hnot
      · rw [hpp]
        simp
      · intro hnil
        cases hnil
      · intro _
        rw [h.1]
        rfl
      · rw [hpp]
        rfl
    · have h := handleImageUpload_invalid user file rest now uploadError updateError st hv
      refine ⟨?_, ?_, ?_, ?_, ?_, ?_⟩
      · rw [h.1]
        constructor
        · intro hsome
          cases hsome
        · rintro ⟨f, hf, hmem⟩
          cases hf
          exact absurd hmem hv
      · intro f _ _
        exact h.2.1
      · rw [hpp]
        simp
      · intro hnil
        cases hnil
      · rw [h.1]
        intro hsome
        cases hsome
      · rw [hpp]
        rfl

/-- The bucket of each handler: `profile-pictures` for
`Profile.handleImageUpload`, `avatars` for `ProfilePictureUpload.handleUpload`. -/
theorem upload_buckets (user : Profile.SessionUser) (userId : String) (files : List File)
    (now : Nat) (random : String) (uploadError updateError : Option String)
    (st : Profile.UploadState) (st2 : ProfilePictureUpload.State) :
    (∀ r, (Profile.handleImageUpload user files now uploadError updateError st).upload = some r →
        r.bucket = "profile-pictures")
      ∧ (∀ r, (ProfilePictureUpload.handleUpload userId files random uploadError updateError
            st2).upload = some r → r.bucket = "avatars") := by
  cases files with
  | nil =>
    simp [Profile.handleImageUpload, Profile.handleImageUploadTry,
      ProfilePictureUpload.handleUpload, ProfilePictureUpload.handleUploadTry]
  | cons file rest =>
    constructor
    · intro r hr
      by_cases hv : toLowerCase (fileExt file.name) ∈ validExtensions
      · rw [(handleImageUpload_valid user file rest now uploadError updateError st hv).1] at hr
        cases hr
        rfl
      · rw [(handleImageUpload_invalid user file rest now uploadError updateError st hv).1] at hr
        cases hr
    · intro r hr
      rw [handleUpload_cons userId file rest random uploadError updateError st2] at hr
      cases hr
      rfl

/-- Whether a handler requests the upload of the selected file does not depend
on the MIME type and the size of that file. -/
theorem upload_ignores_type_and_size (user : Profile.SessionUser) (userId : String)
    (file : File) (rest : List File) (type : String) (size : Nat) (now : Nat)
    (random : String) (uploadError updateError : Option String)
    (st : Profile.UploadState) (st2 : ProfilePictureUpload.State) :
    (Profile.handleImageUpload user (⟨file.name, type, size⟩ :: rest) now uploadError
          updateError st).upload.isSome
        = (Profile.handleImageUpload user (file :: rest) now uploadError updateError
            st).upload.isSome
      ∧ (ProfilePictureUpload.handleUpload userId (⟨file.name, type, size⟩ :: rest) random
            uploadError updateError st2).upload.isSome
          = (ProfilePictureUpload.handleUpload userId (file :: rest) random uploadError
              updateError st2).upload.isSome := by
  constructor
  · by_cases hv : toLowerCase (fileExt file.name) ∈ validExtensions
    · rw [(handleImageUpload_valid user ⟨file.name, type, size⟩ rest now uploadError updateError
          st hv).1,
        (handleImageUpload_valid user file rest now uploadError updateError st hv).1]
      rfl
    · rw [(handleImageUpload_invalid user ⟨file.name, type, size⟩ rest now uploadError
          updateError st hv).1,
        (handleImageUpload_invalid user file rest now uploadError updateError st hv).1]
  · rw [handleUpload_cons, handleUpload_cons]
    rfl

/-- C21 (amended). `Profile.handleImageUpload` requests an upload, to the bucket
`profile-pictures`, exactly when a file is selected and the extension of its
name, lower-cased, is `jpg`, `jpeg`, `png` or `gif`, and it reports the
invalid-type error for a selected file with another extension;
`ProfilePictureUpload.handleUpload` requests an upload, to the bucket `avatars`,
exactly when a file is selected, and reports an error when none is. The file
sent is the selected one, and whether the request is made does not depend on
the MIME type or the size of the file. -/
theorem upload_issued_iff (user : Profile.SessionUser) (userId : String) (files : List File)
    (now : Nat) (random : String) (uploadError updateError : Option String)
    (st : Profile.UploadState) (st2 : ProfilePictureUpload.State) :
    ((Profile.handleImageUpload user files now uploadError updateError st).upload.isSome = true
        ↔ ∃ file, files.head? = some file
            ∧ toLowerCase (fileExt file.name) ∈ ["jpg", "jpeg", "png", "gif"])
      ∧ (∀ file, files.head? = some file →
          toLowerCase (fileExt file.name) ∉ ["jpg", "jpeg", "png", "gif"] →
          (Profile.handleImageUpload user files now uploadError updateError st).state.error
            = "Invalid file type. Please upload an image file.")
      ∧ ((ProfilePictureUpload.handleUpload userId files random uploadError updateError
            st2).upload.isSome = true ↔ files ≠ [])
      ∧ (files = [] →
          (ProfilePictureUpload.handleUpload userId files random uploadError updateError
            st2).state.error = some "You must select an image to upload.")
      ∧ ((Profile.handleImageUpload user files now uploadError updateError st).upload.isSome
            = true →
          (Profile.handleImageUpload user files now uploadError updateError st).upload.map
            (fun r => r.file) = files.head?)
      ∧ (ProfilePictureUpload.handleUpload userId files random uploadError updateError
          st2).upload.map (fun r => r.file) = files.head?
      ∧ (∀ r, (Profile.handleImageUpload user files now uploadError updateError st).upload
            = some r → r.bucket = "profile-pictures")
      ∧ (∀ r, (ProfilePictureUpload.handleUpload userId files random uploadError updateError
            st2).upload = some r → r.bucket = "avatars")
      ∧ (∀ (file : File) (rest : List File) (type : String) (size : Nat), files = file :: rest →
          (Profile.handleImageUpload user (⟨file.name, type, size⟩ :: rest) now uploadError
                updateError st).upload.isSome
              = (Profile.handleImageUpload user files now uploadError updateError
                  st).upload.isSome
            ∧ (ProfilePictureUpload.handleUpload userId (⟨file.name, type, size⟩ :: rest) random
                  uploadError updateError st2).upload.isSome
                = (ProfilePictureUpload.handleUpload userId files random uploadError
                    updateError st2).upload.isSome) := by
  obtain ⟨h1, h2, h3, h4, h5, h6⟩ :=
    upload_issued_core user userId files now random uploadError updateError st st2
  obtain ⟨h7, h8⟩ := upload_buckets user userId files now random uploadError updateError st st2
  refine ⟨h1, h2, h3, h4, h5, h6, h7, h8, ?_⟩
  intro file rest type size hfiles
  subst hfiles
  exact upload_ignores_type_and_size user userId file rest type size now random uploadError
    updateError st st2

/-- C26. File-type check of `Profile.handleImageUpload` on a selected file: the
upload is requested if and only if the text after the last `.` of the file name
(the whole name when it has no `.`), lower-cased, is one of `jpg`, `jpeg`, `png`,
`gif`; otherwise the handler reports the invalid-type message and requests no
upload; in both cases `uploading` is false and the progress is 0 at the end. -/
theorem file_type_check (user : Profile.SessionUser) (file : File) (rest : List File)
    (now : Nat) (uploadError updateError : Option String) (st : Profile.UploadState) :
    ((Profile.handleImageUpload user (file :: rest) now uploadError updateError
          st).upload.isSome = true
        ↔ toLowerCase (String.mk (afterLastDot file.name.data)) ∈ ["jpg", "jpeg", "png", "gif"])
      ∧ (toLowerCase (String.mk (afterLastDot file.name.data)) ∉ ["jpg", "jpeg", "png", "gif"] →
          (Profile.handleImageUpload user (file :: rest) now uploadError updateError
              st).upload = none
            ∧ (Profile.handleImageUpload user (file :: rest) now uploadError updateError
                st).state.error = "Invalid file type. Please upload an image file.")
      ∧ (Profile.handleImageUpload user (file :: rest) now uploadError updateError
          st).state.uploading = false
      ∧ (Profile.handleImageUpload user (file :: rest) now uploadError updateError
          st).state.uploadProgress = 0 := by
  rw [← fileExt_eq_afterLastDot]
  by_cases hv : toLowerCase (fileExt file.name) ∈ validExtensions
  · have h := handleImageUpload_valid user file rest now uploadError updateError st hv
    refine ⟨?_, fun hnot => absurd hv hnot, h.2.1, h.2.2⟩
    rw [h.1]
    exact ⟨fun _ => hv, fun _ => rfl⟩
  · have h := handleImageUpload_invalid user file rest now uploadError updateError st hv
    refine ⟨?_, fun _ => ⟨h.1, h.2.1⟩, h.2.2.1, h.2.2.2⟩
    rw [h.1]
    constructor
    · intro hsome
      cases hsome
    · intro hmem
      exact absurd hmem hv

/-- Two runs of `Profile.handleImageUpload`, evaluated: `Photo.Final.JPG` is sent
to the bucket `profile-pictures` under `u1/1700000000000.JPG`, and `archive.tar`
is refused. -/
theorem handleImageUpload_examples :
    Profile.handleImageUpload ⟨"u1", "bob@x.org"⟩ [⟨"Photo.Final.JPG", "image/jpeg", 2048⟩]
        1700000000000 none none ⟨false, 0, ""⟩
      = { upload := some ⟨"profile-pictures", "u1/1700000000000.JPG",
            ⟨"Photo.Final.JPG", "image/jpeg", 2048⟩⟩
          avatarUpdate := some "u1/1700000000000.JPG"
          refreshed := true
          state := ⟨false, 0, ""⟩ }
      ∧ Profile.handleImageUpload ⟨"u1", "bob@x.org"⟩ [⟨"archive.tar", "application/x-tar", 2048⟩]
          1700000000000 none none ⟨false, 0, ""⟩
        = { upload := none
            avatarUpdate := none
            refreshed := false
            state := ⟨false, 0, "Invalid file type. Please upload an image file."⟩ } := by
  decide

end Upload

/-! ## Theorems: PostCard, counters and bookmarks -/

namespace PostCard

/-- C22. The like counter follows the collection: after a successful
`handleLike`, from the initial state or any later one, `likeCount` is the length
of the list just written, and `isLiked` is true exactly when the id of the user
is in that list. -/
theorem like_counter_follows (post : Post) (u : User) (st : State) (sent : List String)
    (hsent : request post (some u) st = some sent) :
    (handleLike post (some u) st true).likeCount = sent.length
      ∧ ((handleLike post (some u) st true).isLiked = true ↔ u.id ∈ sent) := by
  have hstate : handleLike post (some u) st true
      = { isLiked := !st.isLiked, likeCount := sent.length } := by
    simp [handleLike, hsent, settle]
  rw [hstate]
  refine ⟨rfl, ?_⟩
  cases hliked : st.isLiked with
  | false =>
    have hs : sent = post.likes.getD [] ++ [u.id] := by
      simpa [request, newLikes, hliked] using hsent.symm
    simp [hs]
  | true =>
    cases hlikes : post.likes with
    | none => simp [request, newLikes, hliked, hlikes] at hsent
    | some l =>
      have hs : sent = l.filter (fun id => id != u.id) := by
        simpa [request, newLikes, hliked, hlikes] using hsent.symm
      simp [hs, List.mem_filter]

/-- Witness of C22: the user `U1` likes a post liked by `U2`. -/
theorem like_counter_follows_witness :
    request ⟨1, some ["U2"]⟩ (some ⟨"U1"⟩) (init ⟨1, some ["U2"]⟩ (some ⟨"U1"⟩))
        = some ["U2", "U1"]
      ∧ (handleLike ⟨1, some ["U2"]⟩ (some ⟨"U1"⟩) (init ⟨1, some ["U2"]⟩ (some ⟨"U1"⟩))
          true).likeCount = ["U2", "U1"].length
      ∧ ((handleLike ⟨1, some ["U2"]⟩ (some ⟨"U1"⟩) (init ⟨1, some ["U2"]⟩ (some ⟨"U1"⟩))
            true).isLiked = true
          ↔ (User.mk "U1").id ∈ ["U2", "U1"]) :=
  ⟨by decide,
    like_counter_follows ⟨1, some ["U2"]⟩ ⟨"U1"⟩ (init ⟨1, some ["U2"]⟩ (some ⟨"U1"⟩))
      ["U2", "U1"] (by decide)⟩

/-- C25 (the code at the failing input). From no row and `isBookmarked` false,
one successful `handleBookmark` of `U1` on post 1 leaves the row in the table
and the flag true; a second one leaves the row in the table and the flag
false. -/
theorem bookmark_flag_diverges :
    noBookmarks ("U1", 1) = false
      ∧ (bookmarkTimes ⟨1, none⟩ (some ⟨"U1"⟩) 1 (noBookmarks, false)).1 ("U1", 1) = true
      ∧ (bookmarkTimes ⟨1, none⟩ (some ⟨"U1"⟩) 1 (noBookmarks, false)).2 = true
      ∧ (bookmarkTimes ⟨1, none⟩ (some ⟨"U1"⟩) 2 (noBookmarks, false)).1 ("U1", 1) = true
      ∧ (bookmarkTimes ⟨1, none⟩ (some ⟨"U1"⟩) 2 (noBookmarks, false)).2 = false := by
  decide

/-- C27 (the code at the failing input). On a post without a `likes` field, the
first `handleLike` of `U1` sends `["U1"]` and sets `isLiked`; the second one
evaluates `post.likes.filter` on the missing list and throws. -/
theorem second_like_throws :
    init ⟨1, none⟩ (some ⟨"U1"⟩) = ⟨false, 0⟩
      ∧ request ⟨1, none⟩ (some ⟨"U1"⟩) ⟨false, 0⟩ = some ["U1"]
      ∧ handleLike ⟨1, none⟩ (some ⟨"U1"⟩) ⟨false, 0⟩ true = ⟨true, 1⟩
      ∧ newLikes ⟨1, none⟩ ⟨"U1"⟩ true = none
      ∧ request ⟨1, none⟩ (some ⟨"U1"⟩) ⟨true, 1⟩ = none := by
  decide

end PostCard

/-! ## Theorems: PostDetail -/

namespace PostDetail

/-- The sum `n + 1` of the language never goes below `n`. -/
theorem le_addOne (n : Int) : n ≤ addOne n := by
  unfold addOne
  split
  · omega
  · split
    · split <;> omega
    · exact le_refl n

/-- The sum `n + 1` of the language is exact below 2^53 in magnitude. -/
theorem addOne_of_safe (n : Int) (hlow : -unsafeFrom ≤ n) (hhigh : n < unsafeFrom) :
    addOne n = n + 1 := by
  unfold addOne
  rw [if_pos ⟨hlow, hhigh⟩]

/-- A settled call applies the sum `+ 1` of the language to the counter when a
user is signed in and the write succeeds, and leaves it as it is otherwise. -/
theorem call_upvotes (user : Option User) (st : State) (ok : Bool) :
    (call user st ok).upvotes
      = if user.isSome && ok then addOne st.upvotes else st.upvotes := by
  cases user <;> cases ok <;> simp [call, handleUpvote]

/-- Over a sequence of calls the counter does not decrease. -/
theorem run_upvotes_ge (calls : List (Option User × Bool)) :
    ∀ st : State, st.upvotes ≤ (run calls st).upvotes := by
  induction calls with
  | nil => intro st; exact le_refl _
  | cons c rest ih =>
    intro st
    obtain ⟨user, ok⟩ := c
    have h1 : st.upvotes ≤ (call user st ok).upvotes := by
      rw [call_upvotes]
      split
      · exact le_addOne st.upvotes
      · exact le_refl _
    exact le_trans h1 (ih (call user st ok))

/-- C23 (counterexample). With the counter at 2^53 = 9007199254740992, a call of
a signed-in user whose write succeeds writes `post.upvotes + 1`, which the
language rounds back to 9007199254740992, and leaves the counter there: it is
not raised by one and the value written is not the old value plus one. -/
theorem upvote_exact_counterexample :
    written (some ⟨"U1"⟩) ⟨9007199254740992, ""⟩ true = some 9007199254740992
      ∧ (call (some ⟨"U1"⟩) ⟨9007199254740992, ""⟩ true).upvotes = 9007199254740992
      ∧ (call (some ⟨"U1"⟩) ⟨9007199254740992, ""⟩ true).upvotes
          ≠ (State.mk 9007199254740992 "").upvotes + 1
      ∧ written (some ⟨"U1"⟩) ⟨9007199254740992, ""⟩ true
          ≠ some ((State.mk 9007199254740992 "").upvotes + 1) := by
  decide

/-- C23 (amended). Over every finite sequence of `handleUpvote` calls the counter
does not decrease, and stays at or above 0 when it started there; a call without
a user (which sends nothing) or with a failed write leaves it unchanged; a call
of a signed-in user whose write succeeds writes the sum `post.upvotes + 1` of
the language and sets the counter to it, which is the old value plus one
whenever the counter is below 2^53 in magnitude. -/
theorem upvotes_monotone (calls : List (Option User × Bool)) (st : State) (u : User)
    (user : Option User) (ok : Bool) :
    st.upvotes ≤ (run calls st).upvotes
      ∧ (0 ≤ st.upvotes → 0 ≤ (run calls st).upvotes)
      ∧ (call none st ok).upvotes = st.upvotes
      ∧ written none st ok = none
      ∧ (call user st false).upvotes = st.upvotes
      ∧ (call (some u) st true).upvotes = addOne st.upvotes
      ∧ written (some u) st true = some (addOne st.upvotes)
      ∧ st.upvotes ≤ (call (some u) st true).upvotes
      ∧ (-9007199254740992 ≤ st.upvotes → st.upvotes < 9007199254740992 →
          (call (some u) st true).upvotes = st.upvotes + 1
            ∧ written (some u) st true = some (st.upvotes + 1)) := by
  have hge := run_upvotes_ge calls st
  have hcall : (call (some u) st true).upvotes = addOne st.upvotes := by
    simp [call_upvotes]
  have hwritten : written (some u) st true = some (addOne st.upvotes) := by
    simp [written, handleUpvote]
  refine ⟨hge, fun h => le_trans h hge, ?_, ?_, ?_, hcall, hwritten, ?_, ?_⟩
  · simp [call_upvotes]
  · simp [written, handleUpvote]
  · simp [call_upvotes]
  · rw [hcall]
    exact le_addOne st.upvotes
  · intro hlow hhigh
    rw [hcall, hwritten, addOne_of_safe st.upvotes hlow hhigh]
    exact ⟨rfl, rfl⟩

/-- Witness of C23 (amended): a counter at 3, one successful call of `U1`, and a
sequence of four calls of which two count. -/
theorem upvotes_monotone_witness :
    (call (some ⟨"U1"⟩) ⟨3, ""⟩ true).upvotes = 3 + 1
      ∧ written (some ⟨"U1"⟩) ⟨3, ""⟩ true = some (3 + 1)
      ∧ (State.mk 3 "").upvotes
          ≤ (run [(some ⟨"U1"⟩, true), (none, true), (some ⟨"U2"⟩, false), (some ⟨"U2"⟩, true)]
              ⟨3, ""⟩).upvotes :=
  ⟨((upvotes_monotone [] ⟨3, ""⟩ ⟨"U1"⟩ none true).2.2.2.2.2.2.2.2 (by decide) (by decide)).1,
    ((upvotes_monotone [] ⟨3, ""⟩ ⟨"U1"⟩ none true).2.2.2.2.2.2.2.2 (by decide) (by decide)).2,
    (upvotes_monotone
      [(some ⟨"U1"⟩, true), (none, true), (some ⟨"U2"⟩, false), (some ⟨"U2"⟩, true)]
      ⟨3, ""⟩ ⟨"U1"⟩ none true).1⟩

/-- Two sequences of calls, evaluated: on a counter at 3 two of four calls count;
on a counter at 2^53 - 1 the first of two successful calls reaches 2^53 and the
second one stays there. -/
theorem run_upvotes_example :
    run [(some ⟨"U1"⟩, true), (none, true), (some ⟨"U2"⟩, false), (some ⟨"U2"⟩, true)] ⟨3, ""⟩
        = ⟨5, "Failed to upvote post"⟩
      ∧ run [(some ⟨"U1"⟩, true), (some ⟨"U1"⟩, true)] ⟨9007199254740991, ""⟩
        = ⟨9007199254740992, ""⟩ := by
  decide

end PostDetail

/-! ## Theorems: CommentSection, `handleDelete` -/

namespace CommentSection

/-- C24. Comments are deletable only by their author: the request of
`handleDelete`, when one is sent, is restricted to the given comment id and to
the rows whose `user_id` is the id of the signed-in user; nothing is sent when
no user is signed in; and the handler leaves the local comment list as it is. -/
theorem delete_only_own (user : Option User) (commentId : Nat) (ok : Bool) (st : Panel) :
    (handleDelete user commentId ok st).1
        = user.map (fun u => { id := commentId, user_id := u.id })
      ∧ (handleDelete none commentId ok st).1 = none
      ∧ (handleDelete user commentId ok st).2.comments = st.comments := by
  cases user <;> cases ok <;> simp [handleDelete]

end CommentSection

/-! ## Theorems: AnimeBrowser, frame of `handleInteraction` -/

namespace AnimeBrowser

/-- C29. Frame of an interaction change: after `handleInteraction(animeId, status)`,
successful or failed, signed in or not, the status of every other subject is
what it was before; without a signed-in user the map is unchanged and no
request is sent. -/
theorem interaction_frame (user : Option User) (st : State) (animeId : AnimeId)
    (status : String) (ok : Bool) :
    (∀ k, k ≠ animeId →
        (call user st animeId status ok).userInteractions k = st.userInteractions k)
      ∧ (call none st animeId status ok).userInteractions = st.userInteractions
      ∧ issued none st animeId status ok = none := by
  refine ⟨?_, rfl, rfl⟩
  intro k hk
  cases user with
  | none => rfl
  | some u =>
    cases ok with
    | false => rw [call_failed_interactions]
    | true =>
      rw [call_ok_apply]
      simp [hk]

end AnimeBrowser

/-! ## Theorems: CommentSection, the author of a pushed comment -/

namespace CommentSection

/-- On the rows, the push callback on the rendered elements is the push
callback `onPayload`. -/
theorem onPayloadShown_rows (prev : List Shown) (payload : Payload) :
    (onPayloadShown prev payload).map (fun c => c.row)
      = onPayload (prev.map (fun c => c.row)) payload := by
  cases payload with
  | insert new => simp [onPayloadShown, onPayload]
  | delete oldId =>
    simp only [onPayloadShown, onPayload, List.filter_map]
    rfl
  | update old new => rfl

/-- A DELETE event keeps the author profile on every comment that stays. -/
theorem delete_keeps_authors (prev : List Shown) (oldId : Nat)
    (hprev : ∀ c ∈ prev, c.user.isSome = true) :
    ∀ c ∈ onPayloadShown prev (Payload.delete oldId), c.user.isSome = true := by
  intro c hc
  simp only [onPayloadShown, List.mem_filter] at hc
  exact hprev c hc.1

/-- C28 (the code at the failing input). The list holds one comment with its
author profile, and renders; after the INSERT event of a second comment the
list holds an element without `user`, and reading `comment.user` in the render
throws. -/
theorem pushed_comment_without_author :
    (∀ c ∈ ([⟨⟨1, 10, "U1", "first", "t0"⟩, some ⟨"bob", none⟩⟩] : List Shown),
        c.user.isSome = true)
      ∧ renderAuthors [⟨⟨1, 10, "U1", "first", "t0"⟩, some ⟨"bob", none⟩⟩]
          = some [("https://ui-avatars.com/api/?name=bob&background=6366f1&color=fff", "bob")]
      ∧ onPayloadShown [⟨⟨1, 10, "U1", "first", "t0"⟩, some ⟨"bob", none⟩⟩]
            (Payload.insert ⟨2, 10, "U2", "second", "t1"⟩)
          = [⟨⟨1, 10, "U1", "first", "t0"⟩, some ⟨"bob", none⟩⟩,
              ⟨⟨2, 10, "U2", "second", "t1"⟩, none⟩]
      ∧ renderAuthors (onPayloadShown [⟨⟨1, 10, "U1", "first", "t0"⟩, some ⟨"bob", none⟩⟩]
            (Payload.insert ⟨2, 10, "U2", "second", "t1"⟩))
          = none := by
  decide

end CommentSection

/-! ## Theorems: AnimeBrowser, the page counter after a failed fetch -/

namespace AnimeBrowser

/-- A run of `fetchAnime` never writes the page number. -/
theorem fetchAnime_page (page : Nat) (response : Response) (st : Catalog) :
    (fetchAnime page response st).page = st.page := by
  simp only [fetchAnime, fetchAnimeTry]
  split
  · split
    · rfl
    · split <;> rfl
  · rfl

/-- A trigger never lowers the page number, and a click on the button of
`loadMore` fetches, if anything, a page above the one held before. -/
theorem step_loadMore_page (response : Response) (st : Catalog) :
    st.page ≤ (step (Trigger.loadMore response) st).1.page
      ∧ ∀ q, (step (Trigger.loadMore response) st).2 = some q → st.page < q := by
  by_cases h : (st.hasMore && !st.loading) = true
  · simp [step, loadMore, h, fetchAnime_page]
  · simp [step, loadMore, h]

/-- Clicks on the button of `loadMore` only fetch pages above the one held at
the start. -/
theorem runTriggers_loadMore_pages (ts : List Trigger) :
    ∀ st : Catalog, (∀ t ∈ ts, t.isLoadMore = true) →
      ∀ q ∈ (runTriggers ts st).2, st.page < q := by
  induction ts with
  | nil => intro st _ q hq; simp [runTriggers] at hq
  | cons t ts ih =>
    intro st hall q hq
    have ht := hall t (List.mem_cons_self t ts)
    cases t with
    | userChanged response => simp [Trigger.isLoadMore] at ht
    | loadMore response =>
      have hstep := step_loadMore_page response st
      have hrest := ih (step (Trigger.loadMore response) st).1
        (fun x hx => hall x (List.mem_cons_of_mem _ hx))
      simp only [runTriggers] at hq
      cases hlog : (step (Trigger.loadMore response) st).2 with
      | none =>
        rw [hlog] at hq
        exact lt_of_le_of_lt hstep.1 (hrest q hq)
      | some page =>
        rw [hlog] at hq
        rcases List.mem_cons.mp hq with e | e
        · rw [e]
          exact hstep.2 page hlog
        · exact lt_of_le_of_lt hstep.1 (hrest q e)

/-- An effective click on the button of `loadMore` (more pages, no fetch in
flight) moves the page number by one and fetches the page of the new number. -/
theorem step_loadMore_effective (response : Response) (st : Catalog)
    (hmore : st.hasMore = true) (hidle : st.loading = false) :
    step (Trigger.loadMore response) st
      = (fetchAnime (st.page + 1) response { st with page := st.page + 1 },
          some (st.page + 1)) := by
  simp [step, loadMore, hmore, hidle]

/-- A fetch that fails before the list is set keeps the list, `hasMore` and the
page number, and ends with `loading` false. -/
theorem fetchAnime_of_failed (page : Nat) (response : Response) (st : Catalog)
    (hfail : response.ok = false ∨ newAnime response = none) :
    (fetchAnime page response st).animeList = st.animeList
      ∧ (fetchAnime page response st).hasMore = st.hasMore
      ∧ (fetchAnime page response st).page = st.page
      ∧ (fetchAnime page response st).loading = false := by
  rcases hfail with h | h
  · simp [fetchAnime, fetchAnimeTry, h]
  · cases hokc : response.ok <;> simp [fetchAnime, fetchAnimeTry, h, hokc]

/-- C30 (counterexample). The list holds anime 1 and the page number is 1;
`loadMore` moves it to 2 and the fetch of page 2 fails; then the `user` prop
changes, the effect runs again and fetches page 2 with success: the items of
page 2 are merged although the page number has not changed. -/
theorem page_refetched_counterexample :
    step (Trigger.loadMore ⟨false, 500, none, none⟩)
        ⟨[⟨1, "A", none, none, none, none, "Finished", none, ""⟩], false, "", 1, true⟩
      = (⟨[⟨1, "A", none, none, none, none, "Finished", none, ""⟩], false,
            "Failed to load anime list", 2, true⟩, some 2)
      ∧ step (Trigger.userChanged ⟨true, 200,
            some [⟨2, "B", some none, none, none, none, "Airing", some none, some []⟩],
            some true⟩)
          ⟨[⟨1, "A", none, none, none, none, "Finished", none, ""⟩], false,
            "Failed to load anime list", 2, true⟩
        = (⟨[⟨1, "A", none, none, none, none, "Finished", none, ""⟩,
              ⟨2, "B", none, none, none, none, "Airing", none, ""⟩], false,
            "Failed to load anime list", 2, true⟩, some 2) := by
  decide

/-- A change of the `user` prop runs the fetch with the page number as it is. -/
theorem step_userChanged (response : Response) (st : Catalog) :
    step (Trigger.userChanged response) st
      = (fetchAnime st.page response st, some st.page) := rfl

/-- A fetch that does not run to its end, whatever the reason, keeps `hasMore`
and the page number, sets the error message and ends with `loading` false. -/
theorem fetchAnime_of_not_succeeded (page : Nat) (response : Response) (st : Catalog)
    (hfail : succeeded response = false) :
    (fetchAnime page response st).hasMore = st.hasMore
      ∧ (fetchAnime page response st).page = st.page
      ∧ (fetchAnime page response st).loading = false
      ∧ (fetchAnime page response st).error = "Failed to load anime list" := by
  cases hok : response.ok with
  | false => simp [fetchAnime, fetchAnimeTry, hok]
  | true =>
    cases hitems : newAnime response with
    | none => simp [fetchAnime, fetchAnimeTry, hok, hitems]
    | some items =>
      cases hflag : response.has_next_page with
      | none => simp [fetchAnime, fetchAnimeTry, hok, hitems, hflag]
      | some flag => simp [succeeded, hok, hitems, hflag] at hfail

/-- C30 (amended). The page counter is never rolled back: when `loadMore` moves
the page number from `p` to `p + 1` and the fetch of page `p + 1` fails, in any of
the ways it can fail, the page number is `p + 1` and the error message is set;
the next `loadMore` is effective and fetches page `p + 2`; and no sequence of
later clicks on `loadMore` fetches page `p + 1` again (every page they fetch is
above it). When the fetch failed on an answer that is not OK or whose mapping
throws, the list is the one held before; when it failed on an OK answer that
maps but has no `pagination`, the list is already the one held before followed
by the items of page `p + 1`. A change of the `user` prop after the failure
fetches page `p + 1` again, and appends its items when that fetch succeeds. -/
theorem page_not_rolled_back (st : Catalog) (response next : Response) (ts : List Trigger)
    (hmore : st.hasMore = true) (hidle : st.loading = false)
    (hfail : succeeded response = false)
    (hclicks : ∀ t ∈ ts, t.isLoadMore = true) :
    (step (Trigger.loadMore response) st).2 = some (st.page + 1)
      ∧ (step (Trigger.loadMore response) st).1.page = st.page + 1
      ∧ (step (Trigger.loadMore response) st).1.error = "Failed to load anime list"
      ∧ (step (Trigger.loadMore next) (step (Trigger.loadMore response) st).1).2
          = some (st.page + 2)
      ∧ (∀ q ∈ (runTriggers ts (step (Trigger.loadMore response) st).1).2, st.page + 1 < q)
      ∧ (response.ok = false ∨ newAnime response = none →
          (step (Trigger.loadMore response) st).1.animeList = st.animeList)
      ∧ (∀ items, response.ok = true → newAnime response = some items →
          response.has_next_page = none → 1 ≤ st.page →
          (step (Trigger.loadMore response) st).1.animeList = st.animeList ++ items)
      ∧ (∀ again : Response,
          (step (Trigger.userChanged again) (step (Trigger.loadMore response) st).1).2
              = some (st.page + 1)
            ∧ (succeeded again = true → 1 ≤ st.page →
                (step (Trigger.userChanged again)
                    (step (Trigger.loadMore response) st).1).1.animeList
                  = (step (Trigger.loadMore response) st).1.animeList ++ itemsOf again)) := by
  have hst := step_loadMore_effective response st hmore hidle
  have hf := fetchAnime_of_not_succeeded (st.page + 1) response
    { st with page := st.page + 1 } hfail
  have hpage : (step (Trigger.loadMore response) st).1.page = st.page + 1 := by
    rw [hst]
    exact hf.2.1
  have h1 : (step (Trigger.loadMore response) st).1.hasMore = true := by
    rw [hst]
    exact hf.1.trans hmore
  have h2 : (step (Trigger.loadMore response) st).1.loading = false := by
    rw [hst]
    exact hf.2.2.1
  have hnext : (step (Trigger.loadMore next) (step (Trigger.loadMore response) st).1).2
      = some (st.page + 2) := by
    rw [step_loadMore_effective next _ h1 h2, hpage]
  refine ⟨by rw [hst], hpage, ?_, hnext, ?_, ?_, ?_, ?_⟩
  · rw [hst]
    exact hf.2.2.2
  · intro q hq
    have h := runTriggers_loadMore_pages ts (step (Trigger.loadMore response) st).1 hclicks q hq
    rw [hpage] at h
    exact h
  · intro hearly
    rw [hst]
    exact (fetchAnime_of_failed (st.page + 1) response { st with page := st.page + 1 } hearly).1
  · intro items hok hitems hnone hpos
    rw [hst]
    have h := (fetch_without_pagination (st.page + 1) response { st with page := st.page + 1 }
      items hok hitems hnone).1
    have hne : st.page + 1 ≠ 1 := by omega
    rw [if_neg hne] at h
    exact h
  · intro again
    rw [step_userChanged]
    refine ⟨congrArg some hpage, ?_⟩
    intro hok hpos
    have h := (fetchAnime_of_succeeded (step (Trigger.loadMore response) st).1.page again
      (step (Trigger.loadMore response) st).1 hok).1
    have hne : (step (Trigger.loadMore response) st).1.page ≠ 1 := by
      rw [hpage]
      omega
    rw [if_neg hne] at h
    exact h

/-- Witness of C30 (amended): the list holds anime 1 on page 1, the fetch of
page 2 is answered with an error status, and two more clicks follow. -/
theorem page_not_rolled_back_witness :
    (Catalog.mk [⟨1, "A", none, none, none, none, "Finished", none, ""⟩] false "" 1
        true).hasMore = true
      ∧ (Catalog.mk [⟨1, "A", none, none, none, none, "Finished", none, ""⟩] false "" 1
          true).loading = false
      ∧ succeeded ⟨false, 500, none, none⟩ = false
      ∧ (runTriggers [Trigger.loadMore ⟨true, 200, some [], some true⟩,
            Trigger.loadMore ⟨false, 500, none, none⟩]
          (step (Trigger.loadMore ⟨false, 500, none, none⟩)
            ⟨[⟨1, "A", none, none, none, none, "Finished", none, ""⟩], false, "", 1,
              true⟩).1).2 = [3, 4]
      ∧ ∀ q ∈ (runTriggers [Trigger.loadMore ⟨true, 200, some [], some true⟩,
            Trigger.loadMore ⟨false, 500, none, none⟩]
          (step (Trigger.loadMore ⟨false, 500, none, none⟩)
            ⟨[⟨1, "A", none, none, none, none, "Finished", none, ""⟩], false, "", 1,
              true⟩).1).2,
          (Catalog.mk [⟨1, "A", none, none, none, none, "Finished", none, ""⟩] false "" 1
            true).page + 1 < q :=
  ⟨rfl, rfl, by decide, by decide,
    (page_not_rolled_back
      ⟨[⟨1, "A", none, none, none, none, "Finished", none, ""⟩], false, "", 1, true⟩
      ⟨false, 500, none, none⟩ ⟨true, 200, some [], some true⟩
      [Trigger.loadMore ⟨true, 200, some [], some true⟩,
        Trigger.loadMore ⟨false, 500, none, none⟩]
      rfl rfl (by decide) (by decide)).2.2.2.2.1⟩

/-- The failing fetch that merges, evaluated: the list holds anime 1 on page 1,
`loadMore` moves to page 2 and the answer is OK, maps to anime 2 and has no
`pagination`: the error is set, the page number is 2 and the list holds the
anime 1 and 2. -/
theorem failed_fetch_merges_example :
    succeeded ⟨true, 200,
        some [⟨2, "B", some none, none, none, none, "Airing", some none, some []⟩], none⟩ = false
      ∧ step (Trigger.loadMore ⟨true, 200,
            some [⟨2, "B", some none, none, none, none, "Airing", some none, some []⟩], none⟩)
          ⟨[⟨1, "A", none, none, none, none, "Finished", none, ""⟩], false, "", 1, true⟩
        = (⟨[⟨1, "A", none, none, none, none, "Finished", none, ""⟩,
              ⟨2, "B", none, none, none, none, "Airing", none, ""⟩], false,
            "Failed to load anime list", 2, true⟩, some 2) := by
  decide

end AnimeBrowser

end OtakuuSpacee
